import Mathlib

set_option maxRecDepth 8192

/-! Verification of the authentication backend in `src/auth_backend.py`.

The in-memory store (`InMemoryUserStore`), the lockout policy, the token
ledger and the authentication route handlers are shallowly embedded.
Time is modelled in integer seconds (`Nat`); every call to
`datetime.now(timezone.utc)` becomes an explicit `now : Nat` argument.
Python dictionaries become association lists with replace-on-insert
semantics; in-place mutation of a shared `UserInDB` object is modelled
by writing the updated record back into the store at the dictionary key
it was fetched from.  Bcrypt hashing and verification are external
collaborators of that module and are passed in as function parameters.
JWT strings are modelled by their payloads: `jwt.encode` is
deterministic and injective on payloads, so payload equality coincides
with string equality of the encoded tokens. -/

/-! ## Association lists (model of Python `dict`) -/

def alookup {α β : Type} [DecidableEq α] : List (α × β) → α → Option β
  | [], _ => none
  | p :: l, k => if p.1 = k then some p.2 else alookup l k

def aerase {α β : Type} [DecidableEq α] : List (α × β) → α → List (α × β)
  | [], _ => []
  | p :: l, k => if p.1 = k then aerase l k else p :: aerase l k

def ainsert {α β : Type} [DecidableEq α] (l : List (α × β)) (k : α) (v : β) :
    List (α × β) :=
  (k, v) :: aerase l k

@[simp]
theorem alookup_nil {α β : Type} [DecidableEq α] (k : α) :
    alookup ([] : List (α × β)) k = none := rfl

theorem alookup_cons {α β : Type} [DecidableEq α] (p : α × β) (l : List (α × β)) (k : α) :
    alookup (p :: l) k = if p.1 = k then some p.2 else alookup l k := rfl

@[simp]
theorem alookup_aerase_self {α β : Type} [DecidableEq α] (l : List (α × β)) (k : α) :
    alookup (aerase l k) k = none := by
  induction l with
  | nil => rfl
  | cons p l ih =>
    by_cases h : p.1 = k
    · simpa [aerase, h] using ih
    · simpa [aerase, alookup, h] using ih

theorem alookup_aerase_ne {α β : Type} [DecidableEq α] (l : List (α × β)) {k k' : α}
    (h : k' ≠ k) : alookup (aerase l k) k' = alookup l k' := by
  induction l with
  | nil => rfl
  | cons p l ih =>
    by_cases hp : p.1 = k
    · simp [aerase, alookup, hp, ih, Ne.symm h]
    · simp [aerase, alookup, hp, ih]

@[simp]
theorem alookup_ainsert_self {α β : Type} [DecidableEq α] (l : List (α × β)) (k : α) (v : β) :
    alookup (ainsert l k v) k = some v := by
  simp [ainsert, alookup]

theorem alookup_ainsert_ne {α β : Type} [DecidableEq α] (l : List (α × β)) {k k' : α} (v : β)
    (h : k' ≠ k) : alookup (ainsert l k v) k' = alookup l k' := by
  simp [ainsert, alookup, Ne.symm h, alookup_aerase_ne l h]

theorem aerase_aerase_self {α β : Type} [DecidableEq α] (l : List (α × β)) (k : α) :
    aerase (aerase l k) k = aerase l k := by
  induction l with
  | nil => rfl
  | cons p l ih =>
    by_cases h : p.1 = k
    · simp [aerase, h, ih]
    · simp [aerase, h, ih]

theorem ainsert_ainsert {α β : Type} [DecidableEq α] (l : List (α × β)) (k : α) (v v' : β) :
    ainsert (ainsert l k v) k v' = ainsert l k v' := by
  simp [ainsert, aerase, aerase_aerase_self]

theorem alookup_mem {α β : Type} [DecidableEq α] {l : List (α × β)} {k : α} {v : β}
    (h : alookup l k = some v) : (k, v) ∈ l := by
  induction l with
  | nil => simp [alookup] at h
  | cons p l ih =>
    rw [alookup_cons] at h
    by_cases hp : p.1 = k
    · rw [if_pos hp] at h
      injection h with h'
      subst h'
      subst hp
      exact List.mem_cons_self p l
    · rw [if_neg hp] at h
      exact List.mem_cons_of_mem _ (ih h)

theorem alookup_filter {α β : Type} [DecidableEq α] {l : List (α × β)} {f : α × β → Bool}
    {k : α} {v : β} (h : alookup (l.filter f) k = some v) :
    (k, v) ∈ l ∧ f (k, v) = true := by
  have hm := alookup_mem h
  rw [List.mem_filter] at hm
  exact hm

/-! ## List-based sets (model of Python `set`) -/

def insertSet {α : Type} [DecidableEq α] (x : α) (l : List α) : List α :=
  if x ∈ l then l else x :: l

theorem mem_insertSet_self {α : Type} [DecidableEq α] (x : α) (l : List α) :
    x ∈ insertSet x l := by
  unfold insertSet
  split
  · assumption
  · exact List.mem_cons_self x l

theorem mem_insertSet_of_mem {α : Type} [DecidableEq α] {y : α} (x : α) {l : List α}
    (h : y ∈ l) : y ∈ insertSet x l := by
  unfold insertSet
  split
  · exact h
  · exact List.mem_cons_of_mem x h

/-! ## Settings (class `Settings` in `src/auth_backend.py`) -/

def ACCESS_TOKEN_EXPIRE_MINUTES : Nat := 30

def REFRESH_TOKEN_EXPIRE_DAYS : Nat := 7

def MAX_LOGIN_ATTEMPTS : Nat := 5

def LOGIN_TIMEOUT_MINUTES : Nat := 15

/-! ## Data model -/

inductive TokenType where
  | ACCESS
  | REFRESH
deriving DecidableEq, Repr

/-- Payload of a JWT produced by `create_token`.  `jwt.encode` is a
deterministic injection from payloads to strings, so the payload stands
for the encoded token string. -/
structure JWTPayload where
  user_id : String
  username : String
  type : TokenType
  exp : Nat
  iat : Nat
deriving DecidableEq, Repr

/-- `create_token(data, token_type, expires_delta)`: the callers always
pass an explicit `expires_delta`, given here as `ttl` in seconds. -/
def create_token (user_id username : String) (t : TokenType) (now ttl : Nat) : JWTPayload :=
  { user_id := user_id, username := username, type := t, exp := now + ttl, iat := now }

/-- `UserInDB`: the user record held in `InMemoryUserStore.users`. -/
structure UserInDB where
  id : String
  email : String
  username : String
  full_name : Option String
  hashed_password : String
  role : String
  is_active : Bool
  created_at : Nat
  updated_at : Nat
  last_login : Option Nat
  failed_login_attempts : Nat
  locked_until : Option Nat
deriving DecidableEq, Repr

/-- Value stored in `InMemoryUserStore.refresh_tokens`. -/
structure RTData where
  user_id : String
  expires_at : Nat
  created_at : Nat
deriving DecidableEq, Repr

/-- Value stored in `InMemoryUserStore.password_reset_tokens`. -/
structure ResetData where
  user_id : String
  created_at : Nat
  expires_at : Nat
deriving DecidableEq, Repr

/-- The mutable state of `InMemoryUserStore`. -/
structure Store where
  users : List (String × UserInDB)
  email_index : List (String × String)
  username_index : List (String × String)
  refresh_tokens : List (JWTPayload × RTData)
  blacklisted_tokens : List JWTPayload
  password_reset_tokens : List (String × ResetData)
deriving DecidableEq, Repr

/-- `InMemoryUserStore._init_admin_user`: the bcrypt hash of the admin
password is a value of the external hasher and is passed in. -/
def adminUser (adminHash : String) (now : Nat) : UserInDB :=
  { id := "admin-001", email := "admin@aimini.games", username := "admin",
    full_name := some "System Administrator", hashed_password := adminHash,
    role := "admin", is_active := true, created_at := now, updated_at := now,
    last_login := none, failed_login_attempts := 0, locked_until := none }

/-- The store as built by `InMemoryUserStore.__init__`. -/
def initStore (adminHash : String) (now : Nat) : Store :=
  { users := [("admin-001", adminUser adminHash now)],
    email_index := [("admin@aimini.games", "admin-001")],
    username_index := [("admin", "admin-001")],
    refresh_tokens := [], blacklisted_tokens := [], password_reset_tokens := [] }

/-! ## InMemoryUserStore operations -/

/-- The field patches that `InMemoryUserStore.update_user` can apply:
`update_data` entries whose key is an attribute of `UserInDB`
(the `hasattr` check in the source). -/
inductive Patch where
  | id (v : String)
  | email (v : String)
  | username (v : String)
  | full_name (v : Option String)
  | hashed_password (v : String)
  | role (v : String)
  | is_active (v : Bool)
  | last_login (v : Option Nat)
  | failed_login_attempts (v : Nat)
  | locked_until (v : Option Nat)
deriving DecidableEq, Repr

def applyPatch (u : UserInDB) : Patch → UserInDB
  | .id v => { u with id := v }
  | .email v => { u with email := v }
  | .username v => { u with username := v }
  | .full_name v => { u with full_name := v }
  | .hashed_password v => { u with hashed_password := v }
  | .role v => { u with role := v }
  | .is_active v => { u with is_active := v }
  | .last_login v => { u with last_login := v }
  | .failed_login_attempts v => { u with failed_login_attempts := v }
  | .locked_until v => { u with locked_until := v }

/-- Python `str.lower()` (the inputs in this module are ASCII). -/
def lowerStr (s : String) : String := String.mk (s.data.map Char.toLower)

/-- `create_user(user_data)`: the randomly generated id
`f"user-{secrets.token_hex(8)}"` is passed in as `fresh_id`, the bcrypt
hasher as `hashf`.  The stored handle is `user_data.username.lower()`. -/
def create_user (hashf : String → String) (s : Store)
    (email username : String) (full_name : Option String) (password : String)
    (fresh_id : String) (now : Nat) : Except String (UserInDB × Store) :=
  if (alookup s.email_index email).isSome then
    .error "Email already registered"
  else if (alookup s.username_index (lowerStr username)).isSome then
    .error "Username already taken"
  else
    let u : UserInDB :=
      { id := fresh_id, email := email, username := (lowerStr username),
        full_name := full_name, hashed_password := hashf password, role := "user",
        is_active := true, created_at := now, updated_at := now, last_login := none,
        failed_login_attempts := 0, locked_until := none }
    .ok (u, { s with
        users := ainsert s.users fresh_id u,
        email_index := ainsert s.email_index u.email fresh_id,
        username_index := ainsert s.username_index u.username fresh_id })

/-- `get_user_by_email(email)`: exact-match lookup in `email_index`. -/
def get_user_by_email (s : Store) (email : String) : Option UserInDB :=
  match alookup s.email_index email with
  | some uid => alookup s.users uid
  | none => none

/-- `get_user_by_username(username)`: lower-cases before the index lookup. -/
def get_user_by_username (s : Store) (username : String) : Option UserInDB :=
  match alookup s.username_index (lowerStr username) with
  | some uid => alookup s.users uid
  | none => none

/-- `get_user_by_id(user_id)`. -/
def get_user_by_id (s : Store) (uid : String) : Option UserInDB :=
  alookup s.users uid

/-- `update_user(user_id, update_data)`: applies the patches in order and
stamps `updated_at`. -/
def update_user (s : Store) (uid : String) (ps : List Patch) (now : Nat) :
    Option UserInDB × Store :=
  match alookup s.users uid with
  | none => (none, s)
  | some u =>
    let u' : UserInDB := { ps.foldl applyPatch u with updated_at := now }
    (some u', { s with users := ainsert s.users uid u' })

/-- `store_refresh_token(token, user_id, expires_at)`. -/
def store_refresh_token (s : Store) (token : JWTPayload) (uid : String)
    (expires_at now : Nat) : Store :=
  { s with refresh_tokens :=
      ainsert s.refresh_tokens token { user_id := uid, expires_at := expires_at, created_at := now } }

/-- `validate_refresh_token(token)`: returns the owning user id and, because
the lookup can evict an expired entry, the possibly-updated store. -/
def validate_refresh_token (s : Store) (token : JWTPayload) (now : Nat) :
    Option String × Store :=
  if token ∈ s.blacklisted_tokens then (none, s)
  else
    match alookup s.refresh_tokens token with
    | none => (none, s)
    | some d =>
      if d.expires_at < now then
        (none, { s with refresh_tokens := aerase s.refresh_tokens token })
      else (some d.user_id, s)

/-- `blacklist_token(token)`. -/
def blacklist_token (s : Store) (token : JWTPayload) : Store :=
  { s with blacklisted_tokens := insertSet token s.blacklisted_tokens }

/-- `is_token_blacklisted(token)`. -/
def is_token_blacklisted (s : Store) (token : JWTPayload) : Bool :=
  token ∈ s.blacklisted_tokens

/-- `cleanup_user_tokens(user_id)`: removes the user's refresh tokens from
the ledger and adds each of them to the blacklist. -/
def cleanup_user_tokens (s : Store) (uid : String) : Store :=
  let toRemove := s.refresh_tokens.filter (fun p => decide (p.2.user_id = uid))
  { s with
    refresh_tokens := s.refresh_tokens.filter (fun p => decide (p.2.user_id ≠ uid)),
    blacklisted_tokens := toRemove.foldl (fun b p => insertSet p.1 b) s.blacklisted_tokens }

/-- `increment_failed_login(user)`. -/
def increment_failed_login (u : UserInDB) (now : Nat) : UserInDB :=
  let u1 := { u with failed_login_attempts := u.failed_login_attempts + 1 }
  if u1.failed_login_attempts ≥ MAX_LOGIN_ATTEMPTS then
    { u1 with locked_until := some (now + LOGIN_TIMEOUT_MINUTES * 60) }
  else u1

/-- `reset_failed_login(user)`. -/
def reset_failed_login (u : UserInDB) : UserInDB :=
  { u with failed_login_attempts := 0, locked_until := none }

/-- `is_user_locked(user)`: the check lazily clears an expired lock, so the
(possibly updated) user is returned along with the verdict. -/
def is_user_locked (u : UserInDB) (now : Nat) : Bool × UserInDB :=
  match u.locked_until with
  | some t =>
    if now < t then (true, u)
    else (false, { u with locked_until := none, failed_login_attempts := 0 })
  | none => (false, u)

/-- `create_password_reset_token(user_id)`: the random
`secrets.token_urlsafe(32)` value is passed in as `rtok`. -/
def create_password_reset_token (s : Store) (uid : String) (rtok : String) (now : Nat) :
    String × Store :=
  let d : ResetData := { user_id := uid, created_at := now, expires_at := now + 3600 }
  (rtok, { s with password_reset_tokens := ainsert s.password_reset_tokens rtok d })

/-- `validate_reset_token(token)`: evicts an expired entry on lookup. -/
def validate_reset_token (s : Store) (rtok : String) (now : Nat) :
    Option String × Store :=
  match alookup s.password_reset_tokens rtok with
  | none => (none, s)
  | some d =>
    if d.expires_at < now then
      (none, { s with password_reset_tokens := aerase s.password_reset_tokens rtok })
    else (some d.user_id, s)

/-- `delete_user(user_id)`. -/
def delete_user (s : Store) (uid : String) : Bool × Store :=
  match alookup s.users uid with
  | none => (false, s)
  | some u =>
    let s1 : Store := { s with
      email_index := aerase s.email_index u.email,
      username_index := aerase s.username_index u.username,
      users := aerase s.users uid }
    (true, cleanup_user_tokens s1 uid)

/-! ## Route handlers

Python route handlers fetch a `UserInDB` object from the store and then
mutate it in place; the object sits in `store.users` under the dictionary
key it was fetched from, so the mutation is modelled by writing the
updated record back at that key. -/

/-- Write-back of an in-place mutation of the user object stored at `uid`. -/
def setUser (s : Store) (uid : String) (u : UserInDB) : Store :=
  { s with users := ainsert s.users uid u }

/-- The identifier resolution in `login`:
`user = get_user_by_email(...) or get_user_by_username(...)`, keeping the
dictionary key the record was found under. -/
def resolveByUsername (s : Store) (ident : String) : Option (String × UserInDB) :=
  match alookup s.username_index (lowerStr ident) with
  | some uid =>
    match alookup s.users uid with
    | some u => some (uid, u)
    | none => none
  | none => none

def resolveLoginUser (s : Store) (ident : String) : Option (String × UserInDB) :=
  match alookup s.email_index ident with
  | some uid =>
    match alookup s.users uid with
    | some u => some (uid, u)
    | none => resolveByUsername s ident
  | none => resolveByUsername s ident

theorem resolveLoginUser_spec (s : Store) (ident : String) :
    (resolveLoginUser s ident).map Prod.snd =
      match get_user_by_email s ident with
      | some u => some u
      | none => get_user_by_username s ident := by
  unfold resolveLoginUser resolveByUsername get_user_by_email get_user_by_username
  cases he : alookup s.email_index ident with
  | none =>
    cases hn : alookup s.username_index (lowerStr ident) with
    | none => simp
    | some uid => cases hu : alookup s.users uid <;> simp [hu]
  | some uid =>
    cases hu : alookup s.users uid with
    | some u => simp [hu]
    | none =>
      cases hn : alookup s.username_index (lowerStr ident) with
      | none => simp [hu]
      | some uid2 => cases hu2 : alookup s.users uid2 <;> simp [hu, hu2]

/-- Outcome of `login` and `refresh_token`: either a `Token` response
carrying the access and refresh JWTs, or an `HTTPException` with its
status code and detail string. -/
inductive TokenOutcome where
  | ok (access : JWTPayload) (refresh : JWTPayload)
  | err (statusCode : Nat) (detail : String)
deriving DecidableEq, Repr

/-- Outcome of the message-only handlers (`reset_password`,
`change_password`): a success message or an `HTTPException`. -/
inductive MsgOutcome where
  | ok (message : String)
  | err (statusCode : Nat) (detail : String)
deriving DecidableEq, Repr

/-- The `POST /auth/login` handler.  `verifyPw` is the external bcrypt
verifier (`verify_password`). -/
def login (verifyPw : String → String → Bool) (s : Store)
    (identifier password : String) (now : Nat) : TokenOutcome × Store :=
  match resolveLoginUser s identifier with
  | none => (.err 401 "Incorrect email/username or password", s)
  | some (uid, user) =>
    let lockCheck := is_user_locked user now
    let user1 := lockCheck.2
    let s1 := setUser s uid user1
    if lockCheck.1 then
      let remaining := ((user1.locked_until.getD 0 - now) % 86400) / 60
      (.err 423 ("Account locked. Try again in " ++ toString remaining ++ " minutes"), s1)
    else if verifyPw password user1.hashed_password then
      let user3 := { reset_failed_login user1 with last_login := some now }
      let s2 := setUser s1 uid user3
      let access := create_token user3.id user3.username .ACCESS now (ACCESS_TOKEN_EXPIRE_MINUTES * 60)
      let refresh := create_token user3.id user3.username .REFRESH now (REFRESH_TOKEN_EXPIRE_DAYS * 86400)
      let s3 := store_refresh_token s2 refresh user3.id (now + REFRESH_TOKEN_EXPIRE_DAYS * 86400) now
      (.ok access refresh, s3)
    else
      (.err 401 "Incorrect email/username or password",
        setUser s1 uid (increment_failed_login user1 now))

/-- The `POST /auth/refresh` handler.  `decode_token` re-checks the JWT
signature and expiry; on an expired JWT the library's
`ExpiredSignatureError` (a `JWTError`) is caught inside `decode_token`
itself, which raises `HTTPException 401 "Could not validate credentials"`.
That `HTTPException` is not a `JWTError`, so the handler's
`except JWTError` clause never remaps it: the expired-JWT path surfaces
with detail `"Could not validate credentials"`. -/
def refresh_token (s : Store) (tok : JWTPayload) (now : Nat) : TokenOutcome × Store :=
  if tok.exp < now then (.err 401 "Could not validate credentials", s)
  else if tok.type ≠ TokenType.REFRESH then (.err 401 "Invalid token type", s)
  else
    match validate_refresh_token s tok now with
    | (none, s1) => (.err 401 "Invalid refresh token", s1)
    | (some uid, s1) =>
      match alookup s1.users uid with
      | none => (.err 401 "User not found or inactive", s1)
      | some user =>
        if user.is_active = false then (.err 401 "User not found or inactive", s1)
        else
          let access := create_token user.id user.username .ACCESS now (ACCESS_TOKEN_EXPIRE_MINUTES * 60)
          let newRefresh := create_token user.id user.username .REFRESH now (REFRESH_TOKEN_EXPIRE_DAYS * 86400)
          let s2 := blacklist_token s1 tok
          let s3 := store_refresh_token s2 newRefresh user.id (now + REFRESH_TOKEN_EXPIRE_DAYS * 86400) now
          (.ok access newRefresh, s3)

/-- The `POST /auth/logout` handler: blacklists the presented access token
and revokes all of the current user's refresh tokens. -/
def logout (s : Store) (accessTok : JWTPayload) (currentUserId : String) : Store :=
  cleanup_user_tokens (blacklist_token s accessTok) currentUserId

/-- The `PUT /auth/change-password` handler; `currentUser` is the record
produced by the auth dependency. -/
def change_password (verifyPw : String → String → Bool) (hashf : String → String)
    (s : Store) (currentUser : UserInDB) (currentPw newPw : String) (now : Nat) :
    MsgOutcome × Store :=
  if verifyPw currentPw currentUser.hashed_password = false then
    (.err 400 "Incorrect current password", s)
  else
    let s1 := (update_user s currentUser.id [.hashed_password (hashf newPw)] now).2
    let s2 := cleanup_user_tokens s1 currentUser.id
    (.ok "Password updated successfully. Please login again.", s2)

/-- Response of `POST /auth/request-password-reset`.  The handler returns a
JSON object that always has a `message` key and, only when the email is
registered, additionally a `reset_token` key; the optional field models
the presence of that key. -/
structure ResetRequestResponse where
  message : String
  reset_token : Option String
deriving DecidableEq, Repr

/-- The `POST /auth/request-password-reset` handler.  `freshTok` is the
random `secrets.token_urlsafe(32)` value. -/
def request_password_reset (s : Store) (email : String) (freshTok : String) (now : Nat) :
    ResetRequestResponse × Store :=
  match get_user_by_email s email with
  | some user =>
    let r := create_password_reset_token s user.id freshTok now
    ({ message := "If the email exists, a reset link has been sent",
       reset_token := some r.1 }, r.2)
  | none =>
    ({ message := "If the email exists, a reset link has been sent",
       reset_token := none }, s)

/-- The `POST /auth/reset-password` handler.  After mutating the store it
reads the user back for logging; a missing user there raises an
`AttributeError`, surfaced as a 500 response. -/
def reset_password (hashf : String → String) (s : Store)
    (resetTok newPw : String) (now : Nat) : MsgOutcome × Store :=
  match validate_reset_token s resetTok now with
  | (none, s1) => (.err 400 "Invalid or expired reset token", s1)
  | (some uid, s1) =>
    let s2 := (update_user s1 uid
      [.hashed_password (hashf newPw), .failed_login_attempts 0, .locked_until none] now).2
    let s3 := cleanup_user_tokens s2 uid
    let s4 : Store :=
      { s3 with password_reset_tokens := aerase s3.password_reset_tokens resetTok }
    match alookup s4.users uid with
    | some _ => (.ok "Password reset successfully", s4)
    | none => (.err 500 "AttributeError", s4)
/-! ## Helper lemmas about the store operations -/

@[simp]
theorem setUser_users (s : Store) (uid : String) (u : UserInDB) :
    (setUser s uid u).users = ainsert s.users uid u := rfl

@[simp]
theorem setUser_email_index (s : Store) (uid : String) (u : UserInDB) :
    (setUser s uid u).email_index = s.email_index := rfl

@[simp]
theorem setUser_username_index (s : Store) (uid : String) (u : UserInDB) :
    (setUser s uid u).username_index = s.username_index := rfl

@[simp]
theorem store_refresh_token_users (s : Store) (tok : JWTPayload) (uid : String) (e n : Nat) :
    (store_refresh_token s tok uid e n).users = s.users := rfl

@[simp]
theorem store_refresh_token_email_index (s : Store) (tok : JWTPayload) (uid : String) (e n : Nat) :
    (store_refresh_token s tok uid e n).email_index = s.email_index := rfl

@[simp]
theorem store_refresh_token_username_index (s : Store) (tok : JWTPayload) (uid : String) (e n : Nat) :
    (store_refresh_token s tok uid e n).username_index = s.username_index := rfl

@[simp]
theorem store_refresh_token_blacklisted (s : Store) (tok : JWTPayload) (uid : String) (e n : Nat) :
    (store_refresh_token s tok uid e n).blacklisted_tokens = s.blacklisted_tokens := rfl

@[simp]
theorem store_refresh_token_refresh_tokens (s : Store) (tok : JWTPayload) (uid : String) (e n : Nat) :
    (store_refresh_token s tok uid e n).refresh_tokens =
      ainsert s.refresh_tokens tok { user_id := uid, expires_at := e, created_at := n } := rfl

@[simp]
theorem blacklist_token_blacklisted (s : Store) (tok : JWTPayload) :
    (blacklist_token s tok).blacklisted_tokens = insertSet tok s.blacklisted_tokens := rfl

@[simp]
theorem blacklist_token_refresh_tokens (s : Store) (tok : JWTPayload) :
    (blacklist_token s tok).refresh_tokens = s.refresh_tokens := rfl

@[simp]
theorem blacklist_token_users (s : Store) (tok : JWTPayload) :
    (blacklist_token s tok).users = s.users := rfl

@[simp]
theorem cleanup_user_tokens_users (s : Store) (uid : String) :
    (cleanup_user_tokens s uid).users = s.users := rfl

@[simp]
theorem cleanup_user_tokens_email_index (s : Store) (uid : String) :
    (cleanup_user_tokens s uid).email_index = s.email_index := rfl

@[simp]
theorem cleanup_user_tokens_username_index (s : Store) (uid : String) :
    (cleanup_user_tokens s uid).username_index = s.username_index := rfl

@[simp]
theorem cleanup_user_tokens_password_reset (s : Store) (uid : String) :
    (cleanup_user_tokens s uid).password_reset_tokens = s.password_reset_tokens := rfl

@[simp]
theorem cleanup_user_tokens_refresh_tokens (s : Store) (uid : String) :
    (cleanup_user_tokens s uid).refresh_tokens =
      s.refresh_tokens.filter (fun p => decide (p.2.user_id ≠ uid)) := rfl

theorem setUser_setUser (s : Store) (uid : String) (u1 u2 : UserInDB) :
    setUser (setUser s uid u1) uid u2 = setUser s uid u2 := by
  simp [setUser, ainsert_ainsert]

theorem resolveByUsername_lookup {s : Store} {ident uid : String} {u : UserInDB}
    (h : resolveByUsername s ident = some (uid, u)) :
    alookup s.users uid = some u := by
  unfold resolveByUsername at h
  cases hn : alookup s.username_index (lowerStr ident) with
  | none => simp [hn] at h
  | some uid2 =>
    cases hu2 : alookup s.users uid2 with
    | none => simp [hn, hu2] at h
    | some u2 =>
      simp [hn, hu2] at h
      obtain ⟨h1, h2⟩ := h
      subst h1
      subst h2
      exact hu2

theorem resolveLoginUser_lookup {s : Store} {ident uid : String} {u : UserInDB}
    (h : resolveLoginUser s ident = some (uid, u)) :
    alookup s.users uid = some u := by
  unfold resolveLoginUser at h
  cases he : alookup s.email_index ident with
  | none =>
    rw [he] at h
    exact resolveByUsername_lookup h
  | some uid1 =>
    rw [he] at h
    cases hu1 : alookup s.users uid1 with
    | none =>
      simp [hu1] at h
      exact resolveByUsername_lookup h
    | some u1 =>
      simp [hu1] at h
      obtain ⟨h1, h2⟩ := h
      subst h1
      subst h2
      exact hu1

theorem resolveByUsername_setUser {s : Store} {ident uid : String} {u : UserInDB}
    (u' : UserInDB) (h : resolveByUsername s ident = some (uid, u)) :
    resolveByUsername (setUser s uid u') ident = some (uid, u') := by
  unfold resolveByUsername at h
  cases hn : alookup s.username_index (lowerStr ident) with
  | none => simp [hn] at h
  | some uid2 =>
    cases hu2 : alookup s.users uid2 with
    | none => simp [hn, hu2] at h
    | some u2 =>
      simp [hn, hu2] at h
      obtain ⟨h1, h2⟩ := h
      subst h1
      unfold resolveByUsername
      simp [hn]

theorem resolveLoginUser_setUser {s : Store} {ident uid : String} {u : UserInDB}
    (u' : UserInDB) (h : resolveLoginUser s ident = some (uid, u)) :
    resolveLoginUser (setUser s uid u') ident = some (uid, u') := by
  have hu := resolveLoginUser_lookup h
  unfold resolveLoginUser at h
  cases he : alookup s.email_index ident with
  | none =>
    rw [he] at h
    unfold resolveLoginUser
    simp only [setUser_email_index]
    rw [he]
    exact resolveByUsername_setUser u' h
  | some uid1 =>
    rw [he] at h
    unfold resolveLoginUser
    simp only [setUser_email_index, setUser_users]
    rw [he]
    cases hu1 : alookup s.users uid1 with
    | none =>
      simp [hu1] at h
      have hne : uid1 ≠ uid := by
        intro hEq
        rw [hEq, hu] at hu1
        exact Option.noConfusion hu1
      simp only [alookup_ainsert_ne _ _ hne, hu1]
      exact resolveByUsername_setUser u' h
    | some u1 =>
      simp [hu1] at h
      obtain ⟨h1, h2⟩ := h
      subst h1
      simp

theorem is_user_locked_none {u : UserInDB} (now : Nat) (h : u.locked_until = none) :
    is_user_locked u now = (false, u) := by
  simp [is_user_locked, h]

theorem is_user_locked_active {u : UserInDB} {T now : Nat}
    (h : u.locked_until = some T) (hn : now < T) :
    is_user_locked u now = (true, u) := by
  simp [is_user_locked, h, hn]

theorem is_user_locked_expired {u : UserInDB} {T now : Nat}
    (h : u.locked_until = some T) (hn : T ≤ now) :
    is_user_locked u now =
      (false, { u with locked_until := none, failed_login_attempts := 0 }) := by
  simp [is_user_locked, h, Nat.not_lt.mpr hn]

theorem is_user_locked_snd_hashed (u : UserInDB) (now : Nat) :
    ((is_user_locked u now).2).hashed_password = u.hashed_password := by
  unfold is_user_locked
  cases u.locked_until with
  | none => rfl
  | some t =>
    by_cases hn : now < t
    · simp [hn]
    · simp [hn]

theorem increment_failed_login_lt {u : UserInDB} (now : Nat)
    (h : u.failed_login_attempts + 1 < MAX_LOGIN_ATTEMPTS) :
    increment_failed_login u now =
      { u with failed_login_attempts := u.failed_login_attempts + 1 } := by
  simp [increment_failed_login, Nat.not_le.mpr h]

theorem increment_failed_login_ge {u : UserInDB} (now : Nat)
    (h : MAX_LOGIN_ATTEMPTS ≤ u.failed_login_attempts + 1) :
    increment_failed_login u now =
      { u with failed_login_attempts := u.failed_login_attempts + 1,
               locked_until := some (now + LOGIN_TIMEOUT_MINUTES * 60) } := by
  simp [increment_failed_login, h]

theorem increment_failed_login_eq (u : UserInDB) (now : Nat) :
    increment_failed_login u now =
      (if MAX_LOGIN_ATTEMPTS ≤ u.failed_login_attempts + 1 then
        { u with failed_login_attempts := u.failed_login_attempts + 1,
                 locked_until := some (now + LOGIN_TIMEOUT_MINUTES * 60) }
      else { u with failed_login_attempts := u.failed_login_attempts + 1 }) := by
  by_cases h : MAX_LOGIN_ATTEMPTS ≤ u.failed_login_attempts + 1
  · rw [if_pos h]
    exact increment_failed_login_ge now h
  · rw [if_neg h]
    exact increment_failed_login_lt now (Nat.not_le.mp h)

/-! ## Behaviour of the `login` handler -/

theorem login_unknown (verifyPw : String → String → Bool) (s : Store)
    (identifier password : String) (now : Nat)
    (h : resolveLoginUser s identifier = none) :
    login verifyPw s identifier password now =
      (.err 401 "Incorrect email/username or password", s) := by
  simp [login, h]

theorem login_locked (verifyPw : String → String → Bool) {s : Store}
    {identifier : String} (password : String) {now : Nat} {uid : String}
    {u : UserInDB} {T : Nat}
    (hres : resolveLoginUser s identifier = some (uid, u))
    (hT : u.locked_until = some T) (hnow : now < T) :
    login verifyPw s identifier password now =
      (.err 423 ("Account locked. Try again in " ++
          toString (((T - now) % 86400) / 60) ++ " minutes"),
       setUser s uid u) := by
  simp [login, hres, is_user_locked_active hT hnow, hT]

theorem login_wrong (verifyPw : String → String → Bool) {s : Store}
    {identifier password : String} {now : Nat} {uid : String} {u : UserInDB}
    (hres : resolveLoginUser s identifier = some (uid, u))
    (hl : (is_user_locked u now).1 = false)
    (hpw : verifyPw password u.hashed_password = false) :
    login verifyPw s identifier password now =
      (.err 401 "Incorrect email/username or password",
       setUser s uid (increment_failed_login (is_user_locked u now).2 now)) := by
  have hpw2 : verifyPw password ((is_user_locked u now).2).hashed_password = false := by
    rw [is_user_locked_snd_hashed]
    exact hpw
  simp [login, hres, hl, hpw2, setUser_setUser]

theorem login_success (verifyPw : String → String → Bool) {s : Store}
    {identifier password : String} {now : Nat} {uid : String} {u : UserInDB}
    (hres : resolveLoginUser s identifier = some (uid, u))
    (hl : (is_user_locked u now).1 = false)
    (hpw : verifyPw password u.hashed_password = true) :
    login verifyPw s identifier password now =
      (.ok (create_token ({ reset_failed_login (is_user_locked u now).2 with
              last_login := some now } : UserInDB).id
            ({ reset_failed_login (is_user_locked u now).2 with
              last_login := some now } : UserInDB).username
            .ACCESS now (ACCESS_TOKEN_EXPIRE_MINUTES * 60))
          (create_token ({ reset_failed_login (is_user_locked u now).2 with
              last_login := some now } : UserInDB).id
            ({ reset_failed_login (is_user_locked u now).2 with
              last_login := some now } : UserInDB).username
            .REFRESH now (REFRESH_TOKEN_EXPIRE_DAYS * 86400)),
       store_refresh_token
         (setUser s uid ({ reset_failed_login (is_user_locked u now).2 with
            last_login := some now } : UserInDB))
         (create_token ({ reset_failed_login (is_user_locked u now).2 with
            last_login := some now } : UserInDB).id
          ({ reset_failed_login (is_user_locked u now).2 with
            last_login := some now } : UserInDB).username
          .REFRESH now (REFRESH_TOKEN_EXPIRE_DAYS * 86400))
         ({ reset_failed_login (is_user_locked u now).2 with
            last_login := some now } : UserInDB).id
         (now + REFRESH_TOKEN_EXPIRE_DAYS * 86400) now) := by
  have hpw2 : verifyPw password ((is_user_locked u now).2).hashed_password = true := by
    rw [is_user_locked_snd_hashed]
    exact hpw
  simp [login, hres, hl, hpw2, setUser_setUser]

theorem is_user_locked_snd_id (u : UserInDB) (now : Nat) :
    ((is_user_locked u now).2).id = u.id := by
  unfold is_user_locked
  cases u.locked_until with
  | none => rfl
  | some t =>
    by_cases hn : now < t
    · simp [hn]
    · simp [hn]

theorem is_user_locked_snd_username (u : UserInDB) (now : Nat) :
    ((is_user_locked u now).2).username = u.username := by
  unfold is_user_locked
  cases u.locked_until with
  | none => rfl
  | some t =>
    by_cases hn : now < t
    · simp [hn]
    · simp [hn]

theorem increment_failed_login_count (u : UserInDB) (now : Nat) :
    (increment_failed_login u now).failed_login_attempts =
      u.failed_login_attempts + 1 := by
  rw [increment_failed_login_eq]
  split <;> rfl

theorem resolveLoginUser_store_refresh_token (s : Store) (tok : JWTPayload)
    (uid : String) (e n : Nat) (ident : String) :
    resolveLoginUser (store_refresh_token s tok uid e n) ident =
      resolveLoginUser s ident := rfl

/-! ## Witness data: a concrete store with one active user -/

def wVerify : String → String → Bool := fun p h => p == h

def wAlice : UserInDB :=
  { id := "u1", email := "alice@x.com", username := "alice", full_name := none,
    hashed_password := "goodpw", role := "user", is_active := true,
    created_at := 0, updated_at := 0, last_login := none,
    failed_login_attempts := 0, locked_until := none }

def wRefTok : JWTPayload :=
  { user_id := "u1", username := "alice", type := .REFRESH, exp := 604800, iat := 0 }

def wStore : Store :=
  { users := [("u1", wAlice)],
    email_index := [("alice@x.com", "u1")],
    username_index := [("alice", "u1")],
    refresh_tokens := [(wRefTok, { user_id := "u1", expires_at := 604800, created_at := 0 })],
    blacklisted_tokens := [], password_reset_tokens := [] }

/-- C1: for a refresh token that is valid in the ledger (not blacklisted,
recorded, unexpired) whose JWT still verifies, owned by an existing active
user, one `refresh_token` call succeeds with a freshly issued
access+refresh pair, puts the old refresh token on the blacklist and
records the new one in the ledger; a second `refresh_token` call with the
original token fails: at any time `now2` before the token's natural JWT
expiry the blacklist rejects the replay with 401 "Invalid refresh token",
and at any time `now3` past that expiry `decode_token` rejects it with
401 "Could not validate credentials" — either way the rotated-out token
is unusable. -/
theorem C1_refresh_rotation (s : Store) (tok : JWTPayload) (d : RTData)
    (u : UserInDB) (now now2 now3 : Nat)
    (hbl : tok ∉ s.blacklisted_tokens)
    (hled : alookup s.refresh_tokens tok = some d)
    (hexp : ¬ d.expires_at < now)
    (hjwt : ¬ tok.exp < now)
    (htype : tok.type = TokenType.REFRESH)
    (huser : alookup s.users d.user_id = some u)
    (hactive : u.is_active = true)
    (hnow2 : ¬ tok.exp < now2)
    (hnow3 : tok.exp < now3) :
    (refresh_token s tok now).1 =
      .ok (create_token u.id u.username .ACCESS now (ACCESS_TOKEN_EXPIRE_MINUTES * 60))
          (create_token u.id u.username .REFRESH now (REFRESH_TOKEN_EXPIRE_DAYS * 86400)) ∧
    tok ∈ (refresh_token s tok now).2.blacklisted_tokens ∧
    alookup (refresh_token s tok now).2.refresh_tokens
        (create_token u.id u.username .REFRESH now (REFRESH_TOKEN_EXPIRE_DAYS * 86400)) =
      some { user_id := u.id, expires_at := now + REFRESH_TOKEN_EXPIRE_DAYS * 86400,
             created_at := now } ∧
    (refresh_token (refresh_token s tok now).2 tok now2).1 =
      .err 401 "Invalid refresh token" ∧
    (refresh_token (refresh_token s tok now).2 tok now3).1 =
      .err 401 "Could not validate credentials" := by
  have hval : validate_refresh_token s tok now = (some d.user_id, s) := by
    simp [validate_refresh_token, hbl, hled, hexp]
  have hrt : refresh_token s tok now =
      (.ok (create_token u.id u.username .ACCESS now (ACCESS_TOKEN_EXPIRE_MINUTES * 60))
          (create_token u.id u.username .REFRESH now (REFRESH_TOKEN_EXPIRE_DAYS * 86400)),
       store_refresh_token (blacklist_token s tok)
         (create_token u.id u.username .REFRESH now (REFRESH_TOKEN_EXPIRE_DAYS * 86400))
         u.id (now + REFRESH_TOKEN_EXPIRE_DAYS * 86400) now) := by
    simp [refresh_token, hjwt, htype, hval, huser, hactive]
  have hmem2 : tok ∈ (store_refresh_token (blacklist_token s tok)
      (create_token u.id u.username .REFRESH now (REFRESH_TOKEN_EXPIRE_DAYS * 86400))
      u.id (now + REFRESH_TOKEN_EXPIRE_DAYS * 86400) now).blacklisted_tokens := by
    simp only [store_refresh_token_blacklisted, blacklist_token_blacklisted]
    exact mem_insertSet_self tok s.blacklisted_tokens
  refine ⟨by rw [hrt], by rw [hrt]; exact hmem2, ?_, ?_, ?_⟩
  · rw [hrt]
    simp
  · rw [hrt]
    simp [refresh_token, hnow2, htype, validate_refresh_token,
      mem_insertSet_self tok s.blacklisted_tokens]
  · rw [hrt]
    simp [refresh_token, hnow3]

/-- Witness for C1 at a concrete store, token and times: the replay at
time 500 is before the JWT expiry 604800, the one at 700000 is after. -/
theorem C1_refresh_rotation_witness :
    (refresh_token wStore wRefTok 100).1 =
      .ok (create_token wAlice.id wAlice.username .ACCESS 100 (ACCESS_TOKEN_EXPIRE_MINUTES * 60))
          (create_token wAlice.id wAlice.username .REFRESH 100 (REFRESH_TOKEN_EXPIRE_DAYS * 86400)) ∧
    wRefTok ∈ (refresh_token wStore wRefTok 100).2.blacklisted_tokens ∧
    alookup (refresh_token wStore wRefTok 100).2.refresh_tokens
        (create_token wAlice.id wAlice.username .REFRESH 100 (REFRESH_TOKEN_EXPIRE_DAYS * 86400)) =
      some { user_id := wAlice.id, expires_at := 100 + REFRESH_TOKEN_EXPIRE_DAYS * 86400,
             created_at := 100 } ∧
    (refresh_token (refresh_token wStore wRefTok 100).2 wRefTok 500).1 =
      .err 401 "Invalid refresh token" ∧
    (refresh_token (refresh_token wStore wRefTok 100).2 wRefTok 700000).1 =
      .err 401 "Could not validate credentials" :=
  C1_refresh_rotation wStore wRefTok
    { user_id := "u1", expires_at := 604800, created_at := 0 } wAlice 100 500 700000
    (by decide) (by decide) (by decide) (by decide) (by decide) (by decide) (by decide)
    (by decide) (by decide)

/-- A concrete store holding a locked user, for witnesses. -/
def wBob : UserInDB :=
  { id := "u2", email := "bob@x.com", username := "bob", full_name := none,
    hashed_password := "pwbob", role := "user", is_active := true,
    created_at := 0, updated_at := 0, last_login := none,
    failed_login_attempts := 5, locked_until := some 1000 }

def wStoreL : Store :=
  { users := [("u2", wBob)],
    email_index := [("bob@x.com", "u2")],
    username_index := [("bob", "u2")],
    refresh_tokens := [], blacklisted_tokens := [], password_reset_tokens := [] }

/-- C2: the `login` handler performs its checks in the order of the source.
Stated over one scenario per branch, each with its own store:
the email index is consulted first (scenario 0); an unknown identifier
yields 401 with the same detail as a wrong password, leaving the store
unchanged (scenario 1); a locked user yields 423 carrying the remaining
cooldown in minutes regardless of the password (scenario 2); a wrong
password on an unlocked account yields the same 401 as an unknown user
and records the failure via `increment_failed_login` (scenario 3); a
correct password resets the failure counter, clears the lock, sets
last-login, returns a fresh access+refresh pair and records the refresh
token in the ledger (scenario 4). -/
theorem C2_login_order (verifyPw : String → String → Bool)
    (s0 : Store) (ident0 uid0 : String) (u0 : UserInDB)
    (hres0 : alookup s0.email_index ident0 = some uid0)
    (hu0 : alookup s0.users uid0 = some u0)
    (s1 : Store) (ident1 pw1 : String) (n1 : Nat)
    (hres1 : resolveLoginUser s1 ident1 = none)
    (s2 : Store) (ident2 pw2 : String) (n2 : Nat) (uid2 : String) (u2 : UserInDB) (T2 : Nat)
    (hres2 : resolveLoginUser s2 ident2 = some (uid2, u2))
    (hT2 : u2.locked_until = some T2) (hn2 : n2 < T2)
    (s3 : Store) (ident3 pw3 : String) (n3 : Nat) (uid3 : String) (u3 : UserInDB)
    (hres3 : resolveLoginUser s3 ident3 = some (uid3, u3))
    (hl3 : (is_user_locked u3 n3).1 = false)
    (hpw3 : verifyPw pw3 u3.hashed_password = false)
    (s4 : Store) (ident4 pw4 : String) (n4 : Nat) (uid4 : String) (u4 : UserInDB)
    (hres4 : resolveLoginUser s4 ident4 = some (uid4, u4))
    (hl4 : (is_user_locked u4 n4).1 = false)
    (hpw4 : verifyPw pw4 u4.hashed_password = true) :
    resolveLoginUser s0 ident0 = some (uid0, u0) ∧
    login verifyPw s1 ident1 pw1 n1 =
      (.err 401 "Incorrect email/username or password", s1) ∧
    (login verifyPw s2 ident2 pw2 n2).1 =
      .err 423 ("Account locked. Try again in " ++
        toString (((T2 - n2) % 86400) / 60) ++ " minutes") ∧
    (login verifyPw s3 ident3 pw3 n3).1 =
      .err 401 "Incorrect email/username or password" ∧
    resolveLoginUser (login verifyPw s3 ident3 pw3 n3).2 ident3 =
      some (uid3, increment_failed_login (is_user_locked u3 n3).2 n3) ∧
    (increment_failed_login (is_user_locked u3 n3).2 n3).failed_login_attempts =
      ((is_user_locked u3 n3).2).failed_login_attempts + 1 ∧
    (login verifyPw s4 ident4 pw4 n4).1 =
      .ok (create_token u4.id u4.username .ACCESS n4 (ACCESS_TOKEN_EXPIRE_MINUTES * 60))
          (create_token u4.id u4.username .REFRESH n4 (REFRESH_TOKEN_EXPIRE_DAYS * 86400)) ∧
    resolveLoginUser (login verifyPw s4 ident4 pw4 n4).2 ident4 =
      some (uid4, { reset_failed_login (is_user_locked u4 n4).2 with
        last_login := some n4 }) ∧
    ({ reset_failed_login (is_user_locked u4 n4).2 with
        last_login := some n4 } : UserInDB).failed_login_attempts = 0 ∧
    ({ reset_failed_login (is_user_locked u4 n4).2 with
        last_login := some n4 } : UserInDB).locked_until = none ∧
    alookup (login verifyPw s4 ident4 pw4 n4).2.refresh_tokens
        (create_token u4.id u4.username .REFRESH n4 (REFRESH_TOKEN_EXPIRE_DAYS * 86400)) =
      some { user_id := u4.id, expires_at := n4 + REFRESH_TOKEN_EXPIRE_DAYS * 86400,
             created_at := n4 } := by
  have h3 := login_wrong verifyPw hres3 hl3 hpw3
  have h4 := login_success verifyPw hres4 hl4 hpw4
  refine ⟨?_, login_unknown verifyPw s1 ident1 pw1 n1 hres1,
    by rw [login_locked verifyPw pw2 hres2 hT2 hn2], by rw [h3], ?_,
    increment_failed_login_count _ n3, ?_, ?_, rfl, rfl, ?_⟩
  · unfold resolveLoginUser
    simp [hres0, hu0]
  · rw [h3]
    exact resolveLoginUser_setUser _ hres3
  · rw [h4]
    simp [is_user_locked_snd_id, is_user_locked_snd_username, reset_failed_login]
  · rw [h4]
    rw [resolveLoginUser_store_refresh_token]
    exact resolveLoginUser_setUser _ hres4
  · rw [h4]
    simp only [store_refresh_token_refresh_tokens]
    simp [is_user_locked_snd_id, is_user_locked_snd_username, reset_failed_login]

/-- Witness for C2 at concrete stores. -/
theorem C2_login_order_witness :
    resolveLoginUser wStore "alice@x.com" = some ("u1", wAlice) ∧
    login wVerify wStore "charlie@x.com" "x" 0 =
      (.err 401 "Incorrect email/username or password", wStore) ∧
    (login wVerify wStoreL "bob@x.com" "whatever" 400).1 =
      .err 423 ("Account locked. Try again in " ++
        toString (((1000 - 400) % 86400) / 60) ++ " minutes") ∧
    (login wVerify wStore "alice@x.com" "wrongpw" 0).1 =
      .err 401 "Incorrect email/username or password" ∧
    resolveLoginUser (login wVerify wStore "alice@x.com" "wrongpw" 0).2 "alice@x.com" =
      some ("u1", increment_failed_login (is_user_locked wAlice 0).2 0) ∧
    (increment_failed_login (is_user_locked wAlice 0).2 0).failed_login_attempts =
      ((is_user_locked wAlice 0).2).failed_login_attempts + 1 ∧
    (login wVerify wStore "alice@x.com" "goodpw" 7).1 =
      .ok (create_token wAlice.id wAlice.username .ACCESS 7 (ACCESS_TOKEN_EXPIRE_MINUTES * 60))
          (create_token wAlice.id wAlice.username .REFRESH 7 (REFRESH_TOKEN_EXPIRE_DAYS * 86400)) ∧
    resolveLoginUser (login wVerify wStore "alice@x.com" "goodpw" 7).2 "alice@x.com" =
      some ("u1", { reset_failed_login (is_user_locked wAlice 7).2 with
        last_login := some 7 }) ∧
    ({ reset_failed_login (is_user_locked wAlice 7).2 with
        last_login := some 7 } : UserInDB).failed_login_attempts = 0 ∧
    ({ reset_failed_login (is_user_locked wAlice 7).2 with
        last_login := some 7 } : UserInDB).locked_until = none ∧
    alookup (login wVerify wStore "alice@x.com" "goodpw" 7).2.refresh_tokens
        (create_token wAlice.id wAlice.username .REFRESH 7 (REFRESH_TOKEN_EXPIRE_DAYS * 86400)) =
      some { user_id := wAlice.id, expires_at := 7 + REFRESH_TOKEN_EXPIRE_DAYS * 86400,
             created_at := 7 } :=
  C2_login_order wVerify wStore "alice@x.com" "u1" wAlice (by decide) (by decide)
    wStore "charlie@x.com" "x" 0 (by decide)
    wStoreL "bob@x.com" "whatever" 400 "u2" wBob 1000 (by decide) (by decide) (by decide)
    wStore "alice@x.com" "wrongpw" 0 "u1" wAlice (by decide) (by decide) (by decide)
    wStore "alice@x.com" "goodpw" 7 "u1" wAlice (by decide) (by decide) (by decide)

/-- A sequence of `login` calls with the same identifier and password at
the given times, returning the final store. -/
def loginTimes (verifyPw : String → String → Bool) (ident pw : String) :
    Store → List Nat → Store
  | s, [] => s
  | s, t :: ts => loginTimes verifyPw ident pw (login verifyPw s ident pw t).2 ts

/-- C3: each recorded failure increments the counter and, at the threshold
`MAX_LOGIN_ATTEMPTS = 5`, sets `locked_until = now + 15 minutes`; starting
from a user with counter 0 and no lock, five consecutive wrong-password
logins all fail 401 and leave the user with counter 5 and the lock set at
the fifth failure's time; the next attempt within the cooldown fails 423
with the remaining minutes even with the correct password; once the
cooldown has elapsed a correct-password login succeeds, the lock being
cleared lazily by the check, and leaves the counter at 0. -/
theorem C3_lockout_threshold (verifyPw : String → String → Bool) (s : Store)
    (ident pwBad pwGood uid : String) (u : UserInDB)
    (t1 t2 t3 t4 t5 t6 t7 : Nat) (v : UserInDB) (nv : Nat)
    (hres : resolveLoginUser s ident = some (uid, u))
    (hcnt : u.failed_login_attempts = 0)
    (hlock : u.locked_until = none)
    (hbad : verifyPw pwBad u.hashed_password = false)
    (hgood : verifyPw pwGood u.hashed_password = true)
    (ht6 : t6 < t5 + LOGIN_TIMEOUT_MINUTES * 60)
    (ht7 : t5 + LOGIN_TIMEOUT_MINUTES * 60 ≤ t7) :
    increment_failed_login v nv =
      (if MAX_LOGIN_ATTEMPTS ≤ v.failed_login_attempts + 1 then
        { v with failed_login_attempts := v.failed_login_attempts + 1,
                 locked_until := some (nv + LOGIN_TIMEOUT_MINUTES * 60) }
      else { v with failed_login_attempts := v.failed_login_attempts + 1 }) ∧
    (login verifyPw s ident pwBad t1).1 =
      .err 401 "Incorrect email/username or password" ∧
    (login verifyPw (loginTimes verifyPw ident pwBad s [t1]) ident pwBad t2).1 =
      .err 401 "Incorrect email/username or password" ∧
    (login verifyPw (loginTimes verifyPw ident pwBad s [t1, t2]) ident pwBad t3).1 =
      .err 401 "Incorrect email/username or password" ∧
    (login verifyPw (loginTimes verifyPw ident pwBad s [t1, t2, t3]) ident pwBad t4).1 =
      .err 401 "Incorrect email/username or password" ∧
    (login verifyPw (loginTimes verifyPw ident pwBad s [t1, t2, t3, t4]) ident pwBad t5).1 =
      .err 401 "Incorrect email/username or password" ∧
    resolveLoginUser (loginTimes verifyPw ident pwBad s [t1, t2, t3, t4, t5]) ident =
      some (uid, { u with failed_login_attempts := 5, locked_until := some (t5 + LOGIN_TIMEOUT_MINUTES * 60) }) ∧
    (login verifyPw (loginTimes verifyPw ident pwBad s [t1, t2, t3, t4, t5])
        ident pwGood t6).1 =
      .err 423 ("Account locked. Try again in " ++
        toString (((t5 + LOGIN_TIMEOUT_MINUTES * 60 - t6) % 86400) / 60) ++ " minutes") ∧
    (login verifyPw
        (login verifyPw (loginTimes verifyPw ident pwBad s [t1, t2, t3, t4, t5])
          ident pwGood t6).2 ident pwGood t7).1 =
      .ok (create_token u.id u.username .ACCESS t7 (ACCESS_TOKEN_EXPIRE_MINUTES * 60))
          (create_token u.id u.username .REFRESH t7 (REFRESH_TOKEN_EXPIRE_DAYS * 86400)) ∧
    resolveLoginUser
        (login verifyPw
          (login verifyPw (loginTimes verifyPw ident pwBad s [t1, t2, t3, t4, t5])
            ident pwGood t6).2 ident pwGood t7).2 ident =
      some (uid, { u with last_login := some t7, failed_login_attempts := 0, locked_until := none }) := by
  have e1 : is_user_locked u t1 = (false, u) := is_user_locked_none t1 hlock
  have s1eq : login verifyPw s ident pwBad t1 =
      (.err 401 "Incorrect email/username or password",
       setUser s uid { u with failed_login_attempts := 1 }) := by
    rw [login_wrong verifyPw hres (by rw [e1]) hbad]
    simp [e1, increment_failed_login_eq, hcnt, MAX_LOGIN_ATTEMPTS]
  have r1 : resolveLoginUser (setUser s uid { u with failed_login_attempts := 1 }) ident =
      some (uid, { u with failed_login_attempts := 1 }) :=
    resolveLoginUser_setUser _ hres
  have e2 : is_user_locked ({ u with failed_login_attempts := 1 } : UserInDB) t2 =
      (false, { u with failed_login_attempts := 1 }) := is_user_locked_none t2 hlock
  have s2eq : login verifyPw (setUser s uid { u with failed_login_attempts := 1 })
      ident pwBad t2 =
      (.err 401 "Incorrect email/username or password",
       setUser s uid { u with failed_login_attempts := 2 }) := by
    rw [login_wrong verifyPw r1 (by rw [e2]) hbad]
    simp [e2, increment_failed_login_eq, MAX_LOGIN_ATTEMPTS, setUser_setUser]
  have r2 : resolveLoginUser (setUser s uid { u with failed_login_attempts := 2 }) ident =
      some (uid, { u with failed_login_attempts := 2 }) :=
    resolveLoginUser_setUser _ hres
  have e3 : is_user_locked ({ u with failed_login_attempts := 2 } : UserInDB) t3 =
      (false, { u with failed_login_attempts := 2 }) := is_user_locked_none t3 hlock
  have s3eq : login verifyPw (setUser s uid { u with failed_login_attempts := 2 })
      ident pwBad t3 =
      (.err 401 "Incorrect email/username or password",
       setUser s uid { u with failed_login_attempts := 3 }) := by
    rw [login_wrong verifyPw r2 (by rw [e3]) hbad]
    simp [e3, increment_failed_login_eq, MAX_LOGIN_ATTEMPTS, setUser_setUser]
  have r3 : resolveLoginUser (setUser s uid { u with failed_login_attempts := 3 }) ident =
      some (uid, { u with failed_login_attempts := 3 }) :=
    resolveLoginUser_setUser _ hres
  have e4 : is_user_locked ({ u with failed_login_attempts := 3 } : UserInDB) t4 =
      (false, { u with failed_login_attempts := 3 }) := is_user_locked_none t4 hlock
  have s4eq : login verifyPw (setUser s uid { u with failed_login_attempts := 3 })
      ident pwBad t4 =
      (.err 401 "Incorrect email/username or password",
       setUser s uid { u with failed_login_attempts := 4 }) := by
    rw [login_wrong verifyPw r3 (by rw [e4]) hbad]
    simp [e4, increment_failed_login_eq, MAX_LOGIN_ATTEMPTS, setUser_setUser]
  have r4 : resolveLoginUser (setUser s uid { u with failed_login_attempts := 4 }) ident =
      some (uid, { u with failed_login_attempts := 4 }) :=
    resolveLoginUser_setUser _ hres
  have e5 : is_user_locked ({ u with failed_login_attempts := 4 } : UserInDB) t5 =
      (false, { u with failed_login_attempts := 4 }) := is_user_locked_none t5 hlock
  have s5eq : login verifyPw (setUser s uid { u with failed_login_attempts := 4 })
      ident pwBad t5 =
      (.err 401 "Incorrect email/username or password",
       setUser s uid { u with failed_login_attempts := 5, locked_until := some (t5 + LOGIN_TIMEOUT_MINUTES * 60) }) := by
    rw [login_wrong verifyPw r4 (by rw [e5]) hbad]
    simp [e5, increment_failed_login_eq, MAX_LOGIN_ATTEMPTS, setUser_setUser]
  have r5 : resolveLoginUser (setUser s uid { u with failed_login_attempts := 5, locked_until := some (t5 + LOGIN_TIMEOUT_MINUTES * 60) }) ident =
      some (uid, { u with failed_login_attempts := 5, locked_until := some (t5 + LOGIN_TIMEOUT_MINUTES * 60) }) :=
    resolveLoginUser_setUser _ hres
  have w1 : loginTimes verifyPw ident pwBad s [t1] =
      setUser s uid { u with failed_login_attempts := 1 } := by
    simp [loginTimes, s1eq]
  have w2 : loginTimes verifyPw ident pwBad s [t1, t2] =
      setUser s uid { u with failed_login_attempts := 2 } := by
    simp [loginTimes, s1eq, s2eq]
  have w3 : loginTimes verifyPw ident pwBad s [t1, t2, t3] =
      setUser s uid { u with failed_login_attempts := 3 } := by
    simp [loginTimes, s1eq, s2eq, s3eq]
  have w4 : loginTimes verifyPw ident pwBad s [t1, t2, t3, t4] =
      setUser s uid { u with failed_login_attempts := 4 } := by
    simp [loginTimes, s1eq, s2eq, s3eq, s4eq]
  have w5 : loginTimes verifyPw ident pwBad s [t1, t2, t3, t4, t5] =
      setUser s uid { u with failed_login_attempts := 5, locked_until := some (t5 + LOGIN_TIMEOUT_MINUTES * 60) } := by
    simp [loginTimes, s1eq, s2eq, s3eq, s4eq, s5eq]
  have s6eq := login_locked verifyPw pwGood r5 rfl ht6
  have w6 : (login verifyPw (setUser s uid { u with failed_login_attempts := 5, locked_until := some (t5 + LOGIN_TIMEOUT_MINUTES * 60) }) ident pwGood t6).2 =
      setUser s uid { u with failed_login_attempts := 5, locked_until := some (t5 + LOGIN_TIMEOUT_MINUTES * 60) } := by
    rw [s6eq]
    simp [setUser_setUser]
  have e7 : is_user_locked ({ u with failed_login_attempts := 5, locked_until := some (t5 + LOGIN_TIMEOUT_MINUTES * 60) } : UserInDB) t7 =
      (false, { u with failed_login_attempts := 0, locked_until := none }) := by
    rw [is_user_locked_expired rfl ht7]
  have h7 := login_success verifyPw r5 (by rw [e7]) hgood
  refine ⟨increment_failed_login_eq v nv, by rw [s1eq], ?_, ?_, ?_, ?_, ?_, ?_, ?_, ?_⟩
  · rw [w1, s2eq]
  · rw [w2, s3eq]
  · rw [w3, s4eq]
  · rw [w4, s5eq]
  · rw [w5]
    exact r5
  · rw [w5, s6eq]
  · rw [w5]
    simp only [w6, h7]
    simp [e7, reset_failed_login]
  · rw [w5]
    simp only [w6, h7]
    rw [resolveLoginUser_store_refresh_token, setUser_setUser]
    have hXf : ({ reset_failed_login (is_user_locked ({ u with failed_login_attempts := 5, locked_until := some (t5 + LOGIN_TIMEOUT_MINUTES * 60) } : UserInDB) t7).2 with last_login := some t7 } : UserInDB) =
        { u with last_login := some t7, failed_login_attempts := 0, locked_until := none } := by
      simp [e7, reset_failed_login]
    rw [hXf]
    exact resolveLoginUser_setUser _ hres

/-- Witness for C3 at a concrete store and times. -/
theorem C3_lockout_threshold_witness :
    increment_failed_login wAlice 0 =
      (if MAX_LOGIN_ATTEMPTS ≤ wAlice.failed_login_attempts + 1 then
        { wAlice with failed_login_attempts := wAlice.failed_login_attempts + 1,
                      locked_until := some (0 + LOGIN_TIMEOUT_MINUTES * 60) }
      else { wAlice with failed_login_attempts := wAlice.failed_login_attempts + 1 }) ∧
    (login wVerify wStore "alice@x.com" "bad" 10).1 =
      .err 401 "Incorrect email/username or password" ∧
    (login wVerify (loginTimes wVerify "alice@x.com" "bad" wStore [10]) "alice@x.com" "bad" 20).1 =
      .err 401 "Incorrect email/username or password" ∧
    (login wVerify (loginTimes wVerify "alice@x.com" "bad" wStore [10, 20]) "alice@x.com" "bad" 30).1 =
      .err 401 "Incorrect email/username or password" ∧
    (login wVerify (loginTimes wVerify "alice@x.com" "bad" wStore [10, 20, 30]) "alice@x.com" "bad" 40).1 =
      .err 401 "Incorrect email/username or password" ∧
    (login wVerify (loginTimes wVerify "alice@x.com" "bad" wStore [10, 20, 30, 40]) "alice@x.com" "bad" 50).1 =
      .err 401 "Incorrect email/username or password" ∧
    resolveLoginUser (loginTimes wVerify "alice@x.com" "bad" wStore [10, 20, 30, 40, 50]) "alice@x.com" =
      some ("u1", { wAlice with failed_login_attempts := 5, locked_until := some (50 + LOGIN_TIMEOUT_MINUTES * 60) }) ∧
    (login wVerify (loginTimes wVerify "alice@x.com" "bad" wStore [10, 20, 30, 40, 50])
        "alice@x.com" "goodpw" 60).1 =
      .err 423 ("Account locked. Try again in " ++
        toString (((50 + LOGIN_TIMEOUT_MINUTES * 60 - 60) % 86400) / 60) ++ " minutes") ∧
    (login wVerify
        (login wVerify (loginTimes wVerify "alice@x.com" "bad" wStore [10, 20, 30, 40, 50])
          "alice@x.com" "goodpw" 60).2 "alice@x.com" "goodpw" 2000).1 =
      .ok (create_token wAlice.id wAlice.username .ACCESS 2000 (ACCESS_TOKEN_EXPIRE_MINUTES * 60))
          (create_token wAlice.id wAlice.username .REFRESH 2000 (REFRESH_TOKEN_EXPIRE_DAYS * 86400)) ∧
    resolveLoginUser
        (login wVerify
          (login wVerify (loginTimes wVerify "alice@x.com" "bad" wStore [10, 20, 30, 40, 50])
            "alice@x.com" "goodpw" 60).2 "alice@x.com" "goodpw" 2000).2 "alice@x.com" =
      some ("u1", { wAlice with last_login := some 2000, failed_login_attempts := 0, locked_until := none }) :=
  C3_lockout_threshold wVerify wStore "alice@x.com" "bad" "goodpw" "u1" wAlice
    10 20 30 40 50 60 2000 wAlice 0
    (by decide) (by decide) (by decide) (by decide) (by decide) (by decide) (by decide)

/-- `wStore` with its refresh token also on the blacklist (the state after
a rotation: the old token stays in the ledger but is blacklisted). -/
def wStoreB : Store := { wStore with blacklisted_tokens := [wRefTok] }

/-- A refresh token unknown to every ledger. -/
def wTok2 : JWTPayload :=
  { user_id := "u1", username := "alice", type := .REFRESH, exp := 604810, iat := 10 }

/-- C4: a token on the blacklist never validates: `validate_refresh_token`
consults the blacklist first, in every store state, and returns the store
unchanged; `blacklist_token` adds the token to the blacklist in its single
state update, so from that state on the token is unusable even if its
ledger entry remains. -/
theorem C4_blacklist_ledger_exclusion (s : Store) (tok : JWTPayload) (now : Nat)
    (hmem : tok ∈ s.blacklisted_tokens)
    (s2 : Store) (tok2 : JWTPayload) (now2 : Nat) :
    (validate_refresh_token s tok now).1 = none ∧
    (validate_refresh_token s tok now).2 = s ∧
    tok2 ∈ (blacklist_token s2 tok2).blacklisted_tokens ∧
    (validate_refresh_token (blacklist_token s2 tok2) tok2 now2).1 = none := by
  refine ⟨?_, ?_, mem_insertSet_self tok2 s2.blacklisted_tokens, ?_⟩
  · simp [validate_refresh_token, hmem]
  · simp [validate_refresh_token, hmem]
  · simp [validate_refresh_token, mem_insertSet_self tok2 s2.blacklisted_tokens]

/-- Witness for C4 at a concrete store. -/
theorem C4_blacklist_ledger_exclusion_witness :
    (validate_refresh_token wStoreB wRefTok 5).1 = none ∧
    (validate_refresh_token wStoreB wRefTok 5).2 = wStoreB ∧
    wRefTok ∈ (blacklist_token wStore wRefTok).blacklisted_tokens ∧
    (validate_refresh_token (blacklist_token wStore wRefTok) wRefTok 7).1 = none :=
  C4_blacklist_ledger_exclusion wStoreB wRefTok 5 (by decide) wStore wRefTok 7

/-- C5 counterexample: a token that is blacklisted, still in the ledger and
expired (its expiry 604800 is before the lookup time 999999) is rejected by
the lookup but its ledger entry is NOT evicted: the store comes back
unchanged, refuting the claim that an expired entry is evicted from the
ledger as a side effect of the lookup. -/
theorem C5_eviction_counterexample :
    wRefTok ∈ wStoreB.blacklisted_tokens ∧
    alookup wStoreB.refresh_tokens wRefTok =
      some { user_id := "u1", expires_at := 604800, created_at := 0 } ∧
    (604800 : Nat) < 999999 ∧
    (validate_refresh_token wStoreB wRefTok 999999).1 = none ∧
    (validate_refresh_token wStoreB wRefTok 999999).2 = wStoreB := by
  refine ⟨?_, ?_, ?_, ?_, ?_⟩ <;> decide

/-- C5 (amended): `validate_refresh_token` returns the owning user id
exactly when the token is not blacklisted, known to the ledger and
unexpired; it returns `none` when the token is blacklisted, unknown, or
expired; an expired entry is evicted on lookup only when the token is not
blacklisted, while a blacklisted or unknown token leaves the store
unchanged. -/
theorem C5_validate_characterization
    (s1 : Store) (tok1 : JWTPayload) (n1 : Nat) (d1 : RTData)
    (h1a : tok1 ∉ s1.blacklisted_tokens)
    (h1b : alookup s1.refresh_tokens tok1 = some d1)
    (h1c : ¬ d1.expires_at < n1)
    (s2 : Store) (tok2 : JWTPayload) (n2 : Nat)
    (h2a : tok2 ∈ s2.blacklisted_tokens)
    (s3 : Store) (tok3 : JWTPayload) (n3 : Nat)
    (h3a : tok3 ∉ s3.blacklisted_tokens)
    (h3b : alookup s3.refresh_tokens tok3 = none)
    (s4 : Store) (tok4 : JWTPayload) (n4 : Nat) (d4 : RTData)
    (h4a : tok4 ∉ s4.blacklisted_tokens)
    (h4b : alookup s4.refresh_tokens tok4 = some d4)
    (h4c : d4.expires_at < n4) :
    validate_refresh_token s1 tok1 n1 = (some d1.user_id, s1) ∧
    validate_refresh_token s2 tok2 n2 = (none, s2) ∧
    validate_refresh_token s3 tok3 n3 = (none, s3) ∧
    (validate_refresh_token s4 tok4 n4).1 = none ∧
    (validate_refresh_token s4 tok4 n4).2.refresh_tokens = aerase s4.refresh_tokens tok4 ∧
    alookup (validate_refresh_token s4 tok4 n4).2.refresh_tokens tok4 = none := by
  refine ⟨?_, ?_, ?_, ?_, ?_, ?_⟩
  · simp [validate_refresh_token, h1a, h1b, h1c]
  · simp [validate_refresh_token, h2a]
  · simp [validate_refresh_token, h3a, h3b]
  · simp [validate_refresh_token, h4a, h4b, h4c]
  · simp [validate_refresh_token, h4a, h4b, h4c]
  · simp [validate_refresh_token, h4a, h4b, h4c]

/-- Witness for C5 (amended) at concrete stores. -/
theorem C5_validate_characterization_witness :
    validate_refresh_token wStore wRefTok 100 = (some "u1", wStore) ∧
    validate_refresh_token wStoreB wRefTok 5 = (none, wStoreB) ∧
    validate_refresh_token wStore wTok2 5 = (none, wStore) ∧
    (validate_refresh_token wStore wRefTok 999999).1 = none ∧
    (validate_refresh_token wStore wRefTok 999999).2.refresh_tokens =
      aerase wStore.refresh_tokens wRefTok ∧
    alookup (validate_refresh_token wStore wRefTok 999999).2.refresh_tokens wRefTok = none :=
  C5_validate_characterization wStore wRefTok 100
    { user_id := "u1", expires_at := 604800, created_at := 0 }
    (by decide) (by decide) (by decide)
    wStoreB wRefTok 5 (by decide)
    wStore wTok2 5 (by decide) (by decide)
    wStore wRefTok 999999 { user_id := "u1", expires_at := 604800, created_at := 0 }
    (by decide) (by decide) (by decide)

theorem all_filter_self {α : Type} (l : List α) (f : α → Bool) :
    (l.filter f).all f = true := by
  rw [List.all_eq_true]
  intro a ha
  exact (List.mem_filter.mp ha).2

theorem mem_foldl_insertSet_of_mem_base {α β : Type} [DecidableEq α]
    (l : List (α × β)) {x : α} {b : List α} (hx : x ∈ b) :
    x ∈ l.foldl (fun acc q => insertSet q.1 acc) b := by
  induction l generalizing b with
  | nil => exact hx
  | cons q l ih => exact ih (mem_insertSet_of_mem _ hx)

theorem mem_foldl_insertSet_self {α β : Type} [DecidableEq α]
    {l : List (α × β)} {p : α × β} (hp : p ∈ l) (b : List α) :
    p.1 ∈ l.foldl (fun acc q => insertSet q.1 acc) b := by
  induction l generalizing b with
  | nil => cases hp
  | cons q l ih =>
    cases hp with
    | head => exact mem_foldl_insertSet_of_mem_base l (mem_insertSet_self _ b)
    | tail _ h => exact ih h (insertSet q.1 b)

/-- C6: redeeming a valid, unexpired reset token for an existing user
succeeds and, in one handler run: stores the new password hash and clears
both lockout counters on the user record, removes every one of the user's
refresh tokens from the ledger and blacklists each removed token, and
deletes the reset token; a second redemption of the same token then fails
400 "Invalid or expired reset token", and so does redeeming any expired
reset token. -/
theorem C6_reset_redemption (hashf : String → String) (s : Store)
    (rtok pw : String) (now : Nat) (rd : ResetData) (u : UserInDB)
    (pw2 : String) (now2 : Nat)
    (h1 : alookup s.password_reset_tokens rtok = some rd)
    (h2 : ¬ rd.expires_at < now)
    (h3 : alookup s.users rd.user_id = some u)
    (s5 : Store) (rtok5 pw5 : String) (now5 : Nat) (rd5 : ResetData)
    (h5a : alookup s5.password_reset_tokens rtok5 = some rd5)
    (h5b : rd5.expires_at < now5) :
    (reset_password hashf s rtok pw now).1 = .ok "Password reset successfully" ∧
    alookup (reset_password hashf s rtok pw now).2.users rd.user_id =
      some { u with hashed_password := hashf pw, failed_login_attempts := 0, locked_until := none, updated_at := now } ∧
    ((reset_password hashf s rtok pw now).2.refresh_tokens.all
      (fun p => decide (p.2.user_id ≠ rd.user_id))) = true ∧
    (s.refresh_tokens.all (fun p =>
      decide (p.2.user_id ≠ rd.user_id) ||
      decide (p.1 ∈ (reset_password hashf s rtok pw now).2.blacklisted_tokens))) = true ∧
    alookup (reset_password hashf s rtok pw now).2.password_reset_tokens rtok = none ∧
    (reset_password hashf (reset_password hashf s rtok pw now).2 rtok pw2 now2).1 =
      .err 400 "Invalid or expired reset token" ∧
    (reset_password hashf s5 rtok5 pw5 now5).1 =
      .err 400 "Invalid or expired reset token" := by
  have hval : validate_reset_token s rtok now = (some rd.user_id, s) := by
    simp [validate_reset_token, h1, h2]
  have h5 : alookup (reset_password hashf s rtok pw now).2.password_reset_tokens rtok = none := by
    simp [reset_password, hval, update_user, h3]
  have hbl : (reset_password hashf s rtok pw now).2.blacklisted_tokens =
      (s.refresh_tokens.filter (fun p => decide (p.2.user_id = rd.user_id))).foldl
        (fun b p => insertSet p.1 b) s.blacklisted_tokens := by
    simp [reset_password, hval, update_user, h3, cleanup_user_tokens]
  refine ⟨?_, ?_, ?_, ?_, h5, ?_, ?_⟩
  · simp [reset_password, hval, update_user, h3, applyPatch]
  · simp [reset_password, hval, update_user, h3, applyPatch]
  · simp only [reset_password, hval, update_user, h3]
    simp [all_filter_self]
  · rw [List.all_eq_true]
    intro p hp
    by_cases hui : p.2.user_id = rd.user_id
    · have hmem : p ∈ s.refresh_tokens.filter (fun q => decide (q.2.user_id = rd.user_id)) :=
        List.mem_filter.mpr ⟨hp, by simp [hui]⟩
      rw [hbl]
      simp [mem_foldl_insertSet_self hmem s.blacklisted_tokens]
    · simp [hui]
  · revert h5
    generalize (reset_password hashf s rtok pw now).2 = S
    intro hS
    simp [reset_password, validate_reset_token, hS]
  · simp [reset_password, validate_reset_token, h5a, h5b]

/-- `wStore` extended with a pending password-reset token. -/
def wStoreR : Store :=
  { wStore with password_reset_tokens :=
      [("rt1", { user_id := "u1", created_at := 0, expires_at := 3600 })] }

def wHash : String → String := fun p => String.append "h:" p

/-- Witness for C6 at a concrete store. -/
theorem C6_reset_redemption_witness :
    (reset_password wHash wStoreR "rt1" "NewPass1" 100).1 = .ok "Password reset successfully" ∧
    alookup (reset_password wHash wStoreR "rt1" "NewPass1" 100).2.users "u1" =
      some { wAlice with hashed_password := wHash "NewPass1", failed_login_attempts := 0, locked_until := none, updated_at := 100 } ∧
    ((reset_password wHash wStoreR "rt1" "NewPass1" 100).2.refresh_tokens.all
      (fun p => decide (p.2.user_id ≠ "u1"))) = true ∧
    (wStoreR.refresh_tokens.all (fun p =>
      decide (p.2.user_id ≠ "u1") ||
      decide (p.1 ∈ (reset_password wHash wStoreR "rt1" "NewPass1" 100).2.blacklisted_tokens))) = true ∧
    alookup (reset_password wHash wStoreR "rt1" "NewPass1" 100).2.password_reset_tokens "rt1" = none ∧
    (reset_password wHash (reset_password wHash wStoreR "rt1" "NewPass1" 100).2 "rt1" "Other9" 200).1 =
      .err 400 "Invalid or expired reset token" ∧
    (reset_password wHash wStoreR "rt1" "Late1234" 5000).1 =
      .err 400 "Invalid or expired reset token" :=
  C6_reset_redemption wHash wStoreR "rt1" "NewPass1" 100
    { user_id := "u1", created_at := 0, expires_at := 3600 } wAlice "Other9" 200
    (by decide) (by decide) (by decide)
    wStoreR "rt1" "Late1234" 5000
    { user_id := "u1", created_at := 0, expires_at := 3600 } (by decide) (by decide)

/-- C7 counterexample: on a store where `alice@x.com` is registered and
`nobody@x.com` is not, the reset-request response for the registered email
carries a `reset_token` field while the response for the unknown email
does not — the two responses do not have the same shape, refuting the
claim that the absent case is indistinguishable at the response-shape
level. -/
theorem C7_shape_counterexample :
    (request_password_reset wStore "alice@x.com" "tokA" 0).1.reset_token = some "tokA" ∧
    (request_password_reset wStore "nobody@x.com" "tokB" 0).1.reset_token = none := by
  refine ⟨?_, ?_⟩ <;> decide

/-- C7 (amended): `request_password_reset` always returns a response whose
`message` is the same fixed string whether or not the email is registered,
but the `reset_token` key is present exactly when a user with that email
exists (dev-mode token leak flagged for removal in the source). -/
theorem C7_request_response (s : Store) (email ftok : String) (now : Nat) :
    (request_password_reset s email ftok now).1.message =
      "If the email exists, a reset link has been sent" ∧
    (request_password_reset s email ftok now).1.reset_token =
      (get_user_by_email s email).map (fun _ => ftok) := by
  unfold request_password_reset
  cases h : get_user_by_email s email with
  | none => simp
  | some u => simp [create_password_reset_token]

/-! ## Index consistency (C8) -/

/-- The email and handle indices agree with the live user records: every
index entry points at an existing user carrying that email (resp. handle),
and every user is indexed under its email and its handle. -/
def indicesConsistent (s : Store) : Prop :=
  (∀ e uid, alookup s.email_index e = some uid →
    ∃ u, alookup s.users uid = some u ∧ u.email = e) ∧
  (∀ n uid, alookup s.username_index n = some uid →
    ∃ u, alookup s.users uid = some u ∧ u.username = n) ∧
  (∀ uid u, alookup s.users uid = some u →
    alookup s.email_index u.email = some uid ∧
    alookup s.username_index u.username = some uid)

/-- Executable check of `indicesConsistent` over the finite store. -/
def consistentChk (s : Store) : Bool :=
  (s.email_index.all (fun p =>
    match alookup s.users p.2 with
    | some u => u.email == p.1
    | none => false)) &&
  (s.username_index.all (fun p =>
    match alookup s.users p.2 with
    | some u => u.username == p.1
    | none => false)) &&
  (s.users.all (fun p =>
    (alookup s.email_index p.2.email == some p.1) &&
    (alookup s.username_index p.2.username == some p.1)))

theorem indicesConsistent_of_chk (s : Store) (h : consistentChk s = true) :
    indicesConsistent s := by
  unfold consistentChk at h
  rw [Bool.and_eq_true, Bool.and_eq_true] at h
  obtain ⟨⟨hE, hU⟩, hB⟩ := h
  rw [List.all_eq_true] at hE hU hB
  refine ⟨?_, ?_, ?_⟩
  · intro e uid hlk
    have hm := hE _ (alookup_mem hlk)
    cases hu : alookup s.users uid with
    | none => simp [hu] at hm
    | some u =>
      simp [hu] at hm
      exact ⟨u, rfl, hm⟩
  · intro n uid hlk
    have hm := hU _ (alookup_mem hlk)
    cases hu : alookup s.users uid with
    | none => simp [hu] at hm
    | some u =>
      simp [hu] at hm
      exact ⟨u, rfl, hm⟩
  · intro uid u hlk
    have hm := hB _ (alookup_mem hlk)
    simp at hm
    exact hm

/-- Patches that do not touch the indexed fields `email` and `username`. -/
def patchSafe : Patch → Bool
  | .email _ => false
  | .username _ => false
  | _ => true

theorem applyPatch_safe_email {p : Patch} (h : patchSafe p = true) (u : UserInDB) :
    (applyPatch u p).email = u.email := by
  cases p <;> simp_all [patchSafe, applyPatch]

theorem applyPatch_safe_username {p : Patch} (h : patchSafe p = true) (u : UserInDB) :
    (applyPatch u p).username = u.username := by
  cases p <;> simp_all [patchSafe, applyPatch]

theorem foldl_safe_email (ps : List Patch) (h : ps.all patchSafe = true) (u : UserInDB) :
    (ps.foldl applyPatch u).email = u.email := by
  induction ps generalizing u with
  | nil => rfl
  | cons p ps ih =>
    rw [List.all_cons, Bool.and_eq_true] at h
    rw [List.foldl_cons, ih h.2, applyPatch_safe_email h.1]

theorem foldl_safe_username (ps : List Patch) (h : ps.all patchSafe = true) (u : UserInDB) :
    (ps.foldl applyPatch u).username = u.username := by
  induction ps generalizing u with
  | nil => rfl
  | cons p ps ih =>
    rw [List.all_cons, Bool.and_eq_true] at h
    rw [List.foldl_cons, ih h.2, applyPatch_safe_username h.1]

/-- The store produced by `create_user`, which is unchanged on failure. -/
def createdStore (hashf : String → String) (s : Store)
    (email username : String) (full_name : Option String) (password : String)
    (fresh_id : String) (now : Nat) : Store :=
  match create_user hashf s email username full_name password fresh_id now with
  | .ok p => p.2
  | .error _ => s

theorem initStore_consistent (ah : String) (n0 : Nat) :
    indicesConsistent (initStore ah n0) :=
  indicesConsistent_of_chk _ (by simp [consistentChk, initStore, adminUser, alookup])

theorem update_user_consistent (s : Store) (uid : String) (ps : List Patch) (now : Nat)
    (hc : indicesConsistent s) (hsafe : ps.all patchSafe = true) :
    indicesConsistent (update_user s uid ps now).2 := by
  obtain ⟨hE, hU, hB⟩ := hc
  unfold update_user
  cases hu : alookup s.users uid with
  | none => exact ⟨hE, hU, hB⟩
  | some u =>
    have hem : ({ ps.foldl applyPatch u with updated_at := now } : UserInDB).email = u.email :=
      foldl_safe_email ps hsafe u
    have hun : ({ ps.foldl applyPatch u with updated_at := now } : UserInDB).username = u.username :=
      foldl_safe_username ps hsafe u
    refine ⟨?_, ?_, ?_⟩
    · intro e uid0 hlk
      obtain ⟨u0, hu0, he0⟩ := hE e uid0 hlk
      by_cases hEq : uid0 = uid
      · subst hEq
        refine ⟨{ ps.foldl applyPatch u with updated_at := now }, alookup_ainsert_self _ _ _, ?_⟩
        rw [hu] at hu0
        injection hu0 with h'
        rw [hem, h', he0]
      · exact ⟨u0, by rw [alookup_ainsert_ne _ _ hEq]; exact hu0, he0⟩
    · intro n uid0 hlk
      obtain ⟨u0, hu0, he0⟩ := hU n uid0 hlk
      by_cases hEq : uid0 = uid
      · subst hEq
        refine ⟨{ ps.foldl applyPatch u with updated_at := now }, alookup_ainsert_self _ _ _, ?_⟩
        rw [hu] at hu0
        injection hu0 with h'
        rw [hun, h', he0]
      · exact ⟨u0, by rw [alookup_ainsert_ne _ _ hEq]; exact hu0, he0⟩
    · intro uid0 u0 hlk
      by_cases hEq : uid0 = uid
      · subst hEq
        rw [alookup_ainsert_self] at hlk
        injection hlk with h'
        subst h'
        obtain ⟨hbe, hbu⟩ := hB uid0 u hu
        constructor
        · rw [hem]
          exact hbe
        · rw [hun]
          exact hbu
      · rw [alookup_ainsert_ne _ _ hEq] at hlk
        exact hB uid0 u0 hlk

theorem create_user_consistent (hashf : String → String) (s : Store)
    (email username : String) (fn : Option String) (pwd fid : String) (now : Nat)
    (hc : indicesConsistent s) (hfresh : alookup s.users fid = none) :
    indicesConsistent (createdStore hashf s email username fn pwd fid now) := by
  obtain ⟨hE, hU, hB⟩ := hc
  unfold createdStore create_user
  by_cases hE1 : (alookup s.email_index email).isSome
  · rw [if_pos hE1]
    exact ⟨hE, hU, hB⟩
  · rw [if_neg hE1]
    by_cases hU1 : (alookup s.username_index (lowerStr username)).isSome
    · rw [if_pos hU1]
      exact ⟨hE, hU, hB⟩
    · rw [if_neg hU1]
      have hEn : alookup s.email_index email = none :=
        Option.not_isSome_iff_eq_none.mp hE1
      have hUn : alookup s.username_index (lowerStr username) = none :=
        Option.not_isSome_iff_eq_none.mp hU1
      refine ⟨?_, ?_, ?_⟩
      · intro e uid0 hlk
        by_cases he : e = email
        · subst he
          rw [alookup_ainsert_self] at hlk
          injection hlk with h'
          subst h'
          exact ⟨_, alookup_ainsert_self _ _ _, rfl⟩
        · rw [alookup_ainsert_ne _ _ he] at hlk
          obtain ⟨u0, hu0, he0⟩ := hE e uid0 hlk
          have hne : uid0 ≠ fid := by
            intro hEq
            rw [hEq, hfresh] at hu0
            exact Option.noConfusion hu0
          exact ⟨u0, by rw [alookup_ainsert_ne _ _ hne]; exact hu0, he0⟩
      · intro n uid0 hlk
        by_cases hn : n = lowerStr username
        · subst hn
          rw [alookup_ainsert_self] at hlk
          injection hlk with h'
          subst h'
          exact ⟨_, alookup_ainsert_self _ _ _, rfl⟩
        · rw [alookup_ainsert_ne _ _ hn] at hlk
          obtain ⟨u0, hu0, he0⟩ := hU n uid0 hlk
          have hne : uid0 ≠ fid := by
            intro hEq
            rw [hEq, hfresh] at hu0
            exact Option.noConfusion hu0
          exact ⟨u0, by rw [alookup_ainsert_ne _ _ hne]; exact hu0, he0⟩
      · intro uid0 u0 hlk
        by_cases hEq : uid0 = fid
        · subst hEq
          rw [alookup_ainsert_self] at hlk
          injection hlk with h'
          subst h'
          exact ⟨alookup_ainsert_self _ _ _, alookup_ainsert_self _ _ _⟩
        · rw [alookup_ainsert_ne _ _ hEq] at hlk
          obtain ⟨hbe, hbu⟩ := hB uid0 u0 hlk
          constructor
          · have hx : u0.email ≠ email := by
              intro h9
              rw [h9, hEn] at hbe
              exact Option.noConfusion hbe
            rw [alookup_ainsert_ne _ _ hx]
            exact hbe
          · have hx : u0.username ≠ lowerStr username := by
              intro h9
              rw [h9, hUn] at hbu
              exact Option.noConfusion hbu
            rw [alookup_ainsert_ne _ _ hx]
            exact hbu

theorem delete_user_consistent (s : Store) (uid : String)
    (hc : indicesConsistent s) :
    indicesConsistent (delete_user s uid).2 := by
  obtain ⟨hE, hU, hB⟩ := hc
  unfold delete_user
  cases hu : alookup s.users uid with
  | none => exact ⟨hE, hU, hB⟩
  | some u =>
    refine ⟨?_, ?_, ?_⟩
    · intro e uid0 hlk
      simp only [cleanup_user_tokens_email_index] at hlk
      have hene : e ≠ u.email := by
        intro hEq
        rw [hEq, alookup_aerase_self] at hlk
        exact Option.noConfusion hlk
      rw [alookup_aerase_ne _ hene] at hlk
      obtain ⟨u0, hu0, he0⟩ := hE e uid0 hlk
      have hne : uid0 ≠ uid := by
        intro hEq
        rw [hEq, hu] at hu0
        injection hu0 with h'
        apply hene
        rw [← he0, h']
      refine ⟨u0, ?_, he0⟩
      simp only [cleanup_user_tokens_users]
      rw [alookup_aerase_ne _ hne]
      exact hu0
    · intro n uid0 hlk
      simp only [cleanup_user_tokens_username_index] at hlk
      have hene : n ≠ u.username := by
        intro hEq
        rw [hEq, alookup_aerase_self] at hlk
        exact Option.noConfusion hlk
      rw [alookup_aerase_ne _ hene] at hlk
      obtain ⟨u0, hu0, he0⟩ := hU n uid0 hlk
      have hne : uid0 ≠ uid := by
        intro hEq
        rw [hEq, hu] at hu0
        injection hu0 with h'
        apply hene
        rw [← he0, h']
      refine ⟨u0, ?_, he0⟩
      simp only [cleanup_user_tokens_users]
      rw [alookup_aerase_ne _ hne]
      exact hu0
    · intro uid0 u0 hlk
      simp only [cleanup_user_tokens_users] at hlk
      have hne : uid0 ≠ uid := by
        intro hEq
        rw [hEq, alookup_aerase_self] at hlk
        exact Option.noConfusion hlk
      rw [alookup_aerase_ne _ hne] at hlk
      obtain ⟨hbe, hbu⟩ := hB uid0 u0 hlk
      constructor
      · simp only [cleanup_user_tokens_email_index]
        have hx : u0.email ≠ u.email := by
          intro hEq
          rw [hEq] at hbe
          have h2 := (hB uid u hu).1
          rw [h2] at hbe
          injection hbe with h'
          exact hne h'.symm
        rw [alookup_aerase_ne _ hx]
        exact hbe
      · simp only [cleanup_user_tokens_username_index]
        have hx : u0.username ≠ u.username := by
          intro hEq
          rw [hEq] at hbu
          have h2 := (hB uid u hu).2
          rw [h2] at hbu
          injection hbu with h'
          exact hne h'.symm
        rw [alookup_aerase_ne _ hx]
        exact hbu

/-- C8 counterexample: starting from the initial store (which is
consistent), a single `update_user` call whose patch sets `email` — the
dynamic `setattr` loop in the source accepts any `UserInDB` attribute —
produces a state whose email index still maps `admin@aimini.games` to
`admin-001` while that user's record now carries `evil@x.com`: the index
is no longer consistent with the live record set. -/
theorem C8_index_counterexample :
    ¬ indicesConsistent
      (update_user (initStore "H" 0) "admin-001" [Patch.email "evil@x.com"] 5).2 := by
  intro hc
  obtain ⟨hfwd, _, _⟩ := hc
  obtain ⟨u, hu, he⟩ := hfwd "admin@aimini.games" "admin-001" (by decide)
  have hu' : alookup
      (update_user (initStore "H" 0) "admin-001" [Patch.email "evil@x.com"] 5).2.users
      "admin-001" =
      some { adminUser "H" 0 with email := "evil@x.com", updated_at := 5 } := by
    decide
  rw [hu'] at hu
  injection hu with hu2
  rw [← hu2] at he
  exact absurd he (by decide)

/-- C8 (amended): the email and handle indices stay consistent with the
live user record set under the store's user operations as the repository
actually invokes them: the initial store is consistent, `create_user`
preserves consistency when the generated id is fresh, `update_user`
preserves it for every patch list that does not set `email` or `username`
(all call sites patch only `full_name`, `hashed_password`,
`failed_login_attempts`, `locked_until` or `is_active`), and
`delete_user` preserves it unconditionally; an `update_user` patch that
rewrites `email` or `username` can break it (see the counterexample). -/
theorem C8_index_consistency_preserved (ah : String) (n0 : Nat)
    (sc : Store) (emailC usernameC : String) (fnC : Option String)
    (pwdC fidC : String) (nC : Nat) (hashfC : String → String)
    (hcC : indicesConsistent sc)
    (hfresh : alookup sc.users fidC = none)
    (su : Store) (uidU : String) (psU : List Patch) (nU : Nat)
    (hcU : indicesConsistent su) (hsafe : psU.all patchSafe = true)
    (sd : Store) (uidD : String) (hcD : indicesConsistent sd) :
    indicesConsistent (initStore ah n0) ∧
    indicesConsistent (createdStore hashfC sc emailC usernameC fnC pwdC fidC nC) ∧
    indicesConsistent (update_user su uidU psU nU).2 ∧
    indicesConsistent (delete_user sd uidD).2 :=
  ⟨initStore_consistent ah n0,
   create_user_consistent hashfC sc emailC usernameC fnC pwdC fidC nC hcC hfresh,
   update_user_consistent su uidU psU nU hcU hsafe,
   delete_user_consistent sd uidD hcD⟩

/-- Witness for C8 (amended) at a concrete store. -/
theorem C8_index_consistency_preserved_witness :
    indicesConsistent (initStore "H" 0) ∧
    indicesConsistent (createdStore wHash wStore "carol@x.com" "Carol" none "x" "u9" 3) ∧
    indicesConsistent (update_user wStore "u1" [Patch.full_name (some "A")] 9).2 ∧
    indicesConsistent (delete_user wStore "u1").2 :=
  C8_index_consistency_preserved "H" 0 wStore "carol@x.com" "Carol" none "x" "u9" 3 wHash
    (indicesConsistent_of_chk wStore (by decide)) (by decide)
    wStore "u1" [Patch.full_name (some "A")] 9
    (indicesConsistent_of_chk wStore (by decide)) (by decide)
    wStore "u1" (indicesConsistent_of_chk wStore (by decide))

/-! ## Blacklist monotonicity (C9) -/

theorem validate_refresh_token_blacklist (s : Store) (tok : JWTPayload) (n : Nat) :
    (validate_refresh_token s tok n).2.blacklisted_tokens = s.blacklisted_tokens := by
  unfold validate_refresh_token
  split
  · rfl
  · split
    · rfl
    · split <;> rfl

theorem validate_reset_token_blacklist (s : Store) (rtok : String) (n : Nat) :
    (validate_reset_token s rtok n).2.blacklisted_tokens = s.blacklisted_tokens := by
  unfold validate_reset_token
  split
  · rfl
  · split <;> rfl

theorem update_user_blacklist (s : Store) (uid : String) (ps : List Patch) (n : Nat) :
    (update_user s uid ps n).2.blacklisted_tokens = s.blacklisted_tokens := by
  unfold update_user
  split <;> rfl

theorem createdStore_blacklist (hashf : String → String) (s : Store)
    (email username : String) (fn : Option String) (pwd fid : String) (now : Nat) :
    (createdStore hashf s email username fn pwd fid now).blacklisted_tokens =
      s.blacklisted_tokens := by
  unfold createdStore create_user
  by_cases h1 : (alookup s.email_index email).isSome
  · simp [h1]
  · by_cases h2 : (alookup s.username_index (lowerStr username)).isSome
    · simp [h1, h2]
    · simp [h1, h2]

theorem request_password_reset_blacklist (s : Store) (email ftok : String) (n : Nat) :
    (request_password_reset s email ftok n).2.blacklisted_tokens = s.blacklisted_tokens := by
  unfold request_password_reset
  split <;> rfl

theorem login_blacklist (verifyPw : String → String → Bool) (s : Store)
    (i p : String) (n : Nat) :
    (login verifyPw s i p n).2.blacklisted_tokens = s.blacklisted_tokens := by
  unfold login
  split
  · rfl
  · dsimp only
    split
    · rfl
    · split <;> rfl

theorem blacklist_token_mono (s : Store) (tok : JWTPayload) :
    s.blacklisted_tokens ⊆ (blacklist_token s tok).blacklisted_tokens :=
  fun _ ht => mem_insertSet_of_mem _ ht

theorem cleanup_user_tokens_mono (s : Store) (uid : String) :
    s.blacklisted_tokens ⊆ (cleanup_user_tokens s uid).blacklisted_tokens :=
  fun _ ht => mem_foldl_insertSet_of_mem_base _ ht

theorem delete_user_blacklist_mono (s : Store) (uid : String) :
    s.blacklisted_tokens ⊆ (delete_user s uid).2.blacklisted_tokens := by
  unfold delete_user
  split
  · exact fun _ ht => ht
  · exact fun _ ht => mem_foldl_insertSet_of_mem_base _ ht

theorem refresh_token_blacklist_mono (s : Store) (tok : JWTPayload) (n : Nat) :
    s.blacklisted_tokens ⊆ (refresh_token s tok n).2.blacklisted_tokens := by
  have hbl := validate_refresh_token_blacklist s tok n
  unfold refresh_token
  split
  · exact fun _ ht => ht
  · split
    · exact fun _ ht => ht
    · rcases hv : validate_refresh_token s tok n with ⟨o, s1⟩
      rw [hv] at hbl
      have hbl1 : s1.blacklisted_tokens = s.blacklisted_tokens := hbl
      cases o with
      | none =>
        intro t ht
        show t ∈ s1.blacklisted_tokens
        rw [hbl1]
        exact ht
      | some uid2 =>
        dsimp only
        cases hu : alookup s1.users uid2 with
        | none =>
          intro t ht
          show t ∈ s1.blacklisted_tokens
          rw [hbl1]
          exact ht
        | some user =>
          dsimp only
          by_cases ha : user.is_active = false
          · rw [if_pos ha]
            intro t ht
            show t ∈ s1.blacklisted_tokens
            rw [hbl1]
            exact ht
          · rw [if_neg ha]
            intro t ht
            show t ∈ insertSet tok s1.blacklisted_tokens
            apply mem_insertSet_of_mem
            rw [hbl1]
            exact ht

theorem change_password_blacklist_mono (verifyPw : String → String → Bool)
    (hashf : String → String) (s : Store) (u : UserInDB) (cp np : String) (n : Nat) :
    s.blacklisted_tokens ⊆ (change_password verifyPw hashf s u cp np n).2.blacklisted_tokens := by
  unfold change_password
  split
  · exact fun _ ht => ht
  · intro t ht
    apply mem_foldl_insertSet_of_mem_base
    rw [update_user_blacklist]
    exact ht

theorem reset_password_blacklist_mono (hashf : String → String) (s : Store)
    (rtok np : String) (n : Nat) :
    s.blacklisted_tokens ⊆ (reset_password hashf s rtok np n).2.blacklisted_tokens := by
  have hbl := validate_reset_token_blacklist s rtok n
  unfold reset_password
  rcases hv : validate_reset_token s rtok n with ⟨o, s1⟩
  rw [hv] at hbl
  have hbl1 : s1.blacklisted_tokens = s.blacklisted_tokens := hbl
  cases o with
  | none =>
    dsimp only
    intro t ht
    show t ∈ s1.blacklisted_tokens
    rw [hbl1]
    exact ht
  | some uid =>
    dsimp only
    intro t ht
    have hbase : t ∈ (update_user s1 uid
        [Patch.hashed_password (hashf np), Patch.failed_login_attempts 0,
         Patch.locked_until none] n).2.blacklisted_tokens := by
      rw [update_user_blacklist, hbl1]
      exact ht
    have hin : t ∈ (cleanup_user_tokens (update_user s1 uid
        [Patch.hashed_password (hashf np), Patch.failed_login_attempts 0,
         Patch.locked_until none] n).2 uid).blacklisted_tokens :=
      mem_foldl_insertSet_of_mem_base _ hbase
    split <;> exact hin

/-- C9: no operation of the store removes a blacklist entry: after each
modelled operation and route handler the blacklist is a superset of what
it was, and revoking a user's tokens (`cleanup_user_tokens`, reached from
logout, password change, deactivation and `delete_user`) adds the user's
ledger tokens to the blacklist rather than removing anything; no sweep of
the blacklist exists anywhere in the store's operation set. -/
theorem C9_blacklist_monotone
    (s : Store) (tok : JWTPayload) (uid ident pw rtok np email ftok : String)
    (e n : Nat) (ps : List Patch) (fn : Option String) (u : UserInDB)
    (hashf : String → String) (verifyPw : String → String → Bool)
    (s9 : Store) (tok9 : JWTPayload) (d9 : RTData) (uid9 : String) (u9 : UserInDB)
    (h9 : alookup s9.refresh_tokens tok9 = some d9)
    (h9u : d9.user_id = uid9)
    (h9e : alookup s9.users uid9 = some u9) :
    s.blacklisted_tokens ⊆ (store_refresh_token s tok uid e n).blacklisted_tokens ∧
    s.blacklisted_tokens ⊆ (blacklist_token s tok).blacklisted_tokens ∧
    s.blacklisted_tokens ⊆ (cleanup_user_tokens s uid).blacklisted_tokens ∧
    s.blacklisted_tokens ⊆ (validate_refresh_token s tok n).2.blacklisted_tokens ∧
    s.blacklisted_tokens ⊆ (validate_reset_token s rtok n).2.blacklisted_tokens ∧
    s.blacklisted_tokens ⊆ (create_password_reset_token s uid rtok n).2.blacklisted_tokens ∧
    s.blacklisted_tokens ⊆ (update_user s uid ps n).2.blacklisted_tokens ∧
    s.blacklisted_tokens ⊆ (delete_user s uid).2.blacklisted_tokens ∧
    s.blacklisted_tokens ⊆ (createdStore hashf s email ident fn pw uid n).blacklisted_tokens ∧
    s.blacklisted_tokens ⊆ (login verifyPw s ident pw n).2.blacklisted_tokens ∧
    s.blacklisted_tokens ⊆ (refresh_token s tok n).2.blacklisted_tokens ∧
    s.blacklisted_tokens ⊆ (logout s tok uid).blacklisted_tokens ∧
    s.blacklisted_tokens ⊆ (change_password verifyPw hashf s u pw np n).2.blacklisted_tokens ∧
    s.blacklisted_tokens ⊆ (request_password_reset s email ftok n).2.blacklisted_tokens ∧
    s.blacklisted_tokens ⊆ (reset_password hashf s rtok np n).2.blacklisted_tokens ∧
    tok9 ∈ (cleanup_user_tokens s9 uid9).blacklisted_tokens ∧
    tok9 ∈ (delete_user s9 uid9).2.blacklisted_tokens := by
  have hmem9 : (tok9, d9) ∈ s9.refresh_tokens.filter (fun p => decide (p.2.user_id = uid9)) :=
    List.mem_filter.mpr ⟨alookup_mem h9, by simp [h9u]⟩
  refine ⟨fun _ ht => ht, blacklist_token_mono s tok, cleanup_user_tokens_mono s uid,
    ?_, ?_, fun _ ht => ht, ?_, delete_user_blacklist_mono s uid, ?_, ?_,
    refresh_token_blacklist_mono s tok n, ?_,
    change_password_blacklist_mono verifyPw hashf s u pw np n, ?_,
    reset_password_blacklist_mono hashf s rtok np n, ?_, ?_⟩
  · intro t ht
    rw [validate_refresh_token_blacklist]
    exact ht
  · intro t ht
    rw [validate_reset_token_blacklist]
    exact ht
  · intro t ht
    rw [update_user_blacklist]
    exact ht
  · intro t ht
    rw [createdStore_blacklist]
    exact ht
  · intro t ht
    rw [login_blacklist]
    exact ht
  · intro t ht
    exact mem_foldl_insertSet_of_mem_base _ (mem_insertSet_of_mem _ ht)
  · intro t ht
    rw [request_password_reset_blacklist]
    exact ht
  · exact mem_foldl_insertSet_self hmem9 s9.blacklisted_tokens
  · unfold delete_user
    rw [h9e]
    exact mem_foldl_insertSet_self hmem9 _

/-- Witness for C9 at a concrete store. -/
theorem C9_blacklist_monotone_witness :
    wStore.blacklisted_tokens ⊆ (store_refresh_token wStore wRefTok "u1" 9 5).blacklisted_tokens ∧
    wStore.blacklisted_tokens ⊆ (blacklist_token wStore wRefTok).blacklisted_tokens ∧
    wStore.blacklisted_tokens ⊆ (cleanup_user_tokens wStore "u1").blacklisted_tokens ∧
    wStore.blacklisted_tokens ⊆ (validate_refresh_token wStore wRefTok 5).2.blacklisted_tokens ∧
    wStore.blacklisted_tokens ⊆ (validate_reset_token wStore "rt1" 5).2.blacklisted_tokens ∧
    wStore.blacklisted_tokens ⊆ (create_password_reset_token wStore "u1" "rt1" 5).2.blacklisted_tokens ∧
    wStore.blacklisted_tokens ⊆ (update_user wStore "u1" [Patch.is_active false] 5).2.blacklisted_tokens ∧
    wStore.blacklisted_tokens ⊆ (delete_user wStore "u1").2.blacklisted_tokens ∧
    wStore.blacklisted_tokens ⊆ (createdStore wHash wStore "alice@x.com" "alice@x.com" none "x" "u1" 5).blacklisted_tokens ∧
    wStore.blacklisted_tokens ⊆ (login wVerify wStore "alice@x.com" "x" 5).2.blacklisted_tokens ∧
    wStore.blacklisted_tokens ⊆ (refresh_token wStore wRefTok 5).2.blacklisted_tokens ∧
    wStore.blacklisted_tokens ⊆ (logout wStore wRefTok "u1").blacklisted_tokens ∧
    wStore.blacklisted_tokens ⊆ (change_password wVerify wHash wStore wAlice "x" "NewPass1" 5).2.blacklisted_tokens ∧
    wStore.blacklisted_tokens ⊆ (request_password_reset wStore "alice@x.com" "f" 5).2.blacklisted_tokens ∧
    wStore.blacklisted_tokens ⊆ (reset_password wHash wStore "rt1" "NewPass1" 5).2.blacklisted_tokens ∧
    wRefTok ∈ (cleanup_user_tokens wStore "u1").blacklisted_tokens ∧
    wRefTok ∈ (delete_user wStore "u1").2.blacklisted_tokens :=
  C9_blacklist_monotone wStore wRefTok "u1" "alice@x.com" "x" "rt1" "NewPass1"
    "alice@x.com" "f" 9 5 [Patch.is_active false] none wAlice wHash wVerify
    wStore wRefTok { user_id := "u1", expires_at := 604800, created_at := 0 } "u1" wAlice
    (by decide) (by decide) (by decide)

/-- C10: `get_user_by_email` is an exact, case-sensitive match on the
stored email string while `get_user_by_username` lower-cases its argument
before the index lookup; consequently, in a consistent store where some
user is registered with an email that differs from `e'` only in letter
case (and no user's email is exactly `e'`, nor is `lowerStr e'` anyone's
handle), both `login` and `request_password_reset` with `e'` behave
exactly as for a nonexistent user: the same 401 `BadCredentials` error,
no reset token, and an unchanged store. -/
theorem C10_case_sensitive_email
    (s : Store) (e' pw : String) (now : Nat) (verifyPw : String → String → Bool)
    (ftok : String) (nr : Nat)
    (uid0 : String) (u0 : UserInDB)
    (hreg : alookup s.users uid0 = some u0)
    (hcase : lowerStr u0.email = lowerStr e')
    (hneq : u0.email ≠ e')
    (hc : indicesConsistent s)
    (hne : s.users.all (fun p => p.2.email != e') = true)
    (hnu : s.users.all (fun p => p.2.username != lowerStr e') = true)
    (sg : Store) (ng uidg : String) (ug : UserInDB)
    (hg1 : alookup sg.username_index (lowerStr ng) = some uidg)
    (hg2 : alookup sg.users uidg = some ug) :
    login verifyPw s e' pw now = (.err 401 "Incorrect email/username or password", s) ∧
    (request_password_reset s e' ftok nr).1.reset_token = none ∧
    (request_password_reset s e' ftok nr).2 = s ∧
    get_user_by_username sg ng = some ug := by
  have hE : alookup s.email_index e' = none := by
    cases h : alookup s.email_index e' with
    | none => rfl
    | some uid1 =>
      obtain ⟨u1, hu1, he1⟩ := hc.1 e' uid1 h
      have hx := List.all_eq_true.mp hne _ (alookup_mem hu1)
      simp at hx
      exact absurd he1 hx
  have hN : alookup s.username_index (lowerStr e') = none := by
    cases h : alookup s.username_index (lowerStr e') with
    | none => rfl
    | some uid1 =>
      obtain ⟨u1, hu1, he1⟩ := hc.2.1 (lowerStr e') uid1 h
      have hx := List.all_eq_true.mp hnu _ (alookup_mem hu1)
      simp at hx
      exact absurd he1 hx
  have hres : resolveLoginUser s e' = none := by
    unfold resolveLoginUser resolveByUsername
    simp [hE, hN]
  have hmail : get_user_by_email s e' = none := by
    unfold get_user_by_email
    simp [hE]
  refine ⟨login_unknown verifyPw s e' pw now hres, ?_, ?_, ?_⟩
  · unfold request_password_reset
    simp [hmail]
  · unfold request_password_reset
    simp [hmail]
  · unfold get_user_by_username
    simp [hg1, hg2]

/-- Witness for C10: `alice@x.com` is registered; `Alice@x.com` differs
only in case and hits neither index, and a username lookup for `ALICE`
finds the handle `alice`. -/
theorem C10_case_sensitive_email_witness :
    login wVerify wStore "Alice@x.com" "goodpw" 3 =
      (.err 401 "Incorrect email/username or password", wStore) ∧
    (request_password_reset wStore "Alice@x.com" "f" 3).1.reset_token = none ∧
    (request_password_reset wStore "Alice@x.com" "f" 3).2 = wStore ∧
    get_user_by_username wStore "ALICE" = some wAlice :=
  C10_case_sensitive_email wStore "Alice@x.com" "goodpw" 3 wVerify "f" 3
    "u1" wAlice (by decide) (by decide) (by decide)
    (indicesConsistent_of_chk wStore (by decide)) (by decide) (by decide)
    wStore "ALICE" "u1" wAlice (by decide) (by decide)
